import Mathlib

/-!
Verification development for the airspottr Sighting Aggregation and Rarity
Classification Engine.  The definitions below are a shallow embedding of the
Go sources (package internal: dashboard processing, sighting continuity,
rarity tallies, extremes, country resolution, compass sector mapping, and the
older float32 ratio-policy classifier of internal/dashboard.go).

Modelling conventions:
- Go float64 values coming from JSON (altitudes, speeds, coordinates) are
  represented as exact rationals; comparisons between stored values coincide
  with IEEE comparisons on the represented values.
- Go maps with comma-ok lookups are total functions into Option; Go map
  indexing that yields a zero value on a miss is modelled by getD with the
  zero value.  The two tables that the source iterates with range loops
  (hex ranges, registration prefixes) are kept as association lists; the Go
  iteration order is unspecified, the list order stands in for it.
- The four floating-point/formatting computations that the engine merely
  pipes through (great-circle bearing, haversine distance, the info-string
  renderer, and the float64 logarithmic rarity test
  float64 count < Real.log total - RarityConstant) are abstracted into an
  Ext record of functions; every theorem quantifies over Ext, so it holds in
  particular for the concrete floating-point instantiation of the source.
- The float32 ratio classifier of internal/dashboard.go is modelled exactly,
  with round-to-nearest-even rounding to a 24-bit significand.
-/

/-- Sentinel used for aircraft without a given altitude. -/
def altitudeUnknown : String := "  n/a"

/-- Sentinel used for aircraft with missing flight number (trailing space as in the source). -/
def flightUnknown : String := "unknown "

/-- Sentinel code used for aircraft with missing flight number. -/
def flightUnknownCode : String := "n/a"

/-- Sentinel used for aircraft whose type is empty or cannot be found. -/
def typeUnknown : String := "unknown"

/-- Sentinel used for aircraft whose operator is empty or cannot be found. -/
def operatorUnknown : String := "unknown"

/-- Sentinel used for aircraft whose country is empty or cannot be found. -/
def countryUnknown : String := "unknown"

/-- Value of the alt_baro JSON field: either a float64 altitude, a string
(such as "ground"), or absent (Go nil interface). -/
inductive AltBaro where
  | flt : ℚ → AltBaro
  | str : String → AltBaro
  | nil : AltBaro
deriving DecidableEq

/-- Relevant fields of the Go AircraftRecord struct (adsb record). -/
structure AircraftRecord where
  AltBaro : AltBaro
  Flight : String
  GroundSpeed : ℚ
  Hex : String
  Lat : ℚ
  Lon : ℚ
  Registration : String
  Seen : ℚ
  IcaoType : String
  OwnOp : String
  Description : String
  CachedDist : ℚ
  CachedType : String
deriving DecidableEq

/-- Entry of the aircraft reference table (type-code to class/engine/make). -/
structure IcaoAircraft where
  Class : String
  Engine : String
  Make : String
deriving DecidableEq

/-- Entry of the operator reference table (3-letter code to company/country). -/
structure IcaoOperator where
  Company : String
  Country : String
deriving DecidableEq

/-- Numeric hex-id range of the hex-range-to-country table (int64 bounds). -/
structure HexRange where
  LowerBound : ℤ
  UpperBound : ℤ
deriving DecidableEq

/-- Persistent per-hex continuity record of the Sighting Store. -/
structure AircraftSighting where
  lastSeen : ℚ
  lastFlightNo : String
  registration : String
  latitude : ℚ
  longitude : ℚ
  direction : String
  distance : ℚ
  typeShort : String
  typeDesc : String
  operator : String
  country : String
  info : String
deriving DecidableEq

/-- Rarity event: combined 3-bit flag together with the sighting it refers to. -/
structure RareSighting where
  Rarities : ℕ
  Sighting : AircraftSighting
deriving DecidableEq

/-- State of the Dashboard (the Sighting Store). -/
structure Dashboard where
  isWarmup : Bool
  Lat : ℚ
  Lon : ℚ
  Fastest : Option AircraftRecord
  Highest : Option AircraftRecord
  CurrentAircraft : List AircraftRecord
  RareSightings : List RareSighting
  aircraftSightings : String → Option AircraftSighting
  totalTypeCount : ℕ
  totalOperatorCount : ℕ
  totalCountryCount : ℕ
  SeenTypeCount : String → ℕ
  SeenOperatorCount : String → ℕ
  SeenCountryCount : String → ℕ
  IcaoToAircraft : String → Option IcaoAircraft
  IcaoToAirline : String → Option IcaoOperator
  regPrefixToCountry : List (String × String)
  hexRangeToCountry : List (HexRange × String)
  milCodeToOperator : String → Option String

/-- External floating-point and formatting computations that the engine pipes
through: great-circle bearing, haversine distance in kilometres, the
one-line info renderer, and the float64 logarithmic rarity test
(count and total are passed after the increment, as in the source). -/
structure ExtFns where
  bearing : ℚ → ℚ → ℚ → ℚ → ℚ
  distanceKm : ℚ → ℚ → ℚ → ℚ → ℚ
  render : AircraftRecord → String
  rare : ℕ → ℕ → Bool

/-- Fresh dashboard as produced by NewDashboard with injected tables. -/
def newDashboard (lat lon : ℚ)
    (icaoToAircraftMap : String → Option IcaoAircraft)
    (icaoToAirlineMap : String → Option IcaoOperator)
    (regPrefixToCountryMap : List (String × String))
    (hexRangeToCountryMap : List (HexRange × String))
    (milCodeToOperatorMap : String → Option String) : Dashboard :=
  { isWarmup := true
    Lat := lat
    Lon := lon
    Fastest := none
    Highest := none
    CurrentAircraft := []
    RareSightings := []
    aircraftSightings := fun _ => none
    totalTypeCount := 0
    totalOperatorCount := 0
    totalCountryCount := 0
    SeenTypeCount := fun _ => 0
    SeenOperatorCount := fun _ => 0
    SeenCountryCount := fun _ => 0
    IcaoToAircraft := icaoToAircraftMap
    IcaoToAirline := icaoToAirlineMap
    regPrefixToCountry := regPrefixToCountryMap
    hexRangeToCountry := hexRangeToCountryMap
    milCodeToOperator := milCodeToOperatorMap }

/-- FinishWarmupPeriod clears the warm-up flag. -/
def FinishWarmupPeriod (db : Dashboard) : Dashboard := { db with isWarmup := false }

/-- GetFlightNoAsStr: the flight number, or the unknown sentinel when missing. -/
def getFlightNoAsStr (ac : AircraftRecord) : String :=
  if ac.Flight = "" then flightUnknown else ac.Flight

/-- stripDigits removes every digit character (Go strings.Map dropping digits). -/
def stripDigits (s : String) : String :=
  String.mk (s.data.filter (fun c => !c.isDigit))

/-- Drop leading whitespace characters from a character list. -/
def dropLeadingSpace : List Char → List Char
  | [] => []
  | c :: rest => if c.isWhitespace then dropLeadingSpace rest else c :: rest

/-- Model of Go strings.TrimSpace (ASCII whitespace, which covers the flight
numbers handled by the engine). -/
def trimSpaceGo (s : String) : String :=
  String.mk ((dropLeadingSpace (dropLeadingSpace s.data).reverse).reverse)

/-- GetFlightNoAsIcaoCode trims whitespace and digits from the flight number. -/
def getFlightNoAsIcaoCode (ac : AircraftRecord) : String :=
  if ac.Flight.length = 0 then flightUnknownCode
  else stripDigits (trimSpaceGo ac.Flight)

/-- Numeric value of a hexadecimal digit character, if any. -/
def hexDigitVal (c : Char) : Option ℕ :=
  if c.isDigit then some (c.toNat - 48)
  else if 'a' ≤ c ∧ c ≤ 'f' then some (c.toNat - 87)
  else if 'A' ≤ c ∧ c ≤ 'F' then some (c.toNat - 55)
  else none

/-- Parse a nonempty list of hex digits into a natural number. -/
def parseHexNat : List Char → Option ℕ
  | [] => none
  | cs => cs.foldlM (fun acc c => (hexDigitVal c).map (fun d => 16 * acc + d)) 0

/-- Model of strconv.ParseInt(s, 16, 64): optional sign, hex digits, int64
range check; none on any parse error. -/
def parseInt16 (s : String) : Option ℤ :=
  let p : Bool × List Char :=
    match s.data with
    | '+' :: rest => (false, rest)
    | '-' :: rest => (true, rest)
    | cs => (false, cs)
  match parseHexNat p.2 with
  | none => none
  | some n =>
    let v : ℤ := if p.1 then -(n : ℤ) else (n : ℤ)
    if v < -(2 ^ 63) ∨ (2 ^ 63 - 1 : ℤ) < v then none else some v

/-- Model of the ASCII case of Go strings.ToUpper (the strings handled by the
engine are ASCII). -/
def charUpper (c : Char) : Char :=
  if 'a' ≤ c ∧ c ≤ 'z' then Char.ofNat (c.toNat - 32) else c

/-- Uppercase a string character by character. -/
def toUpperGo (s : String) : String :=
  String.mk (s.data.map charUpper)

/-- Substring containment, Go strings.Contains(s, sub). -/
def containsSubstr (s sub : String) : Bool :=
  decide (List.IsInfix sub.data s.data)

/-- getCountryByHexRange: parse the hex id and return the country of the first
range that strictly contains it; the unknown sentinel on parse failure or
when no range matches. -/
def getCountryByHexRange (ranges : List (HexRange × String)) (hexAsStr : String) : String :=
  match parseInt16 hexAsStr with
  | none => countryUnknown
  | some hexAsInt =>
    match ranges.find? (fun kv => decide (kv.1.LowerBound < hexAsInt) && decide (hexAsInt < kv.1.UpperBound)) with
    | some kv => kv.2
    | none => countryUnknown

/-- Registration-prefix lookup (getCountryByRegPrefix of the source): first
table entry whose prefix occurs as a substring of the registration. -/
def lookupRegPrefixCountry (tbl : List (String × String)) (reg : String) : Option String :=
  match tbl.find? (fun kv => containsSubstr reg kv.1) with
  | some kv => some kv.2
  | none => none

/-- Result of one update step: mutations of the dashboard, the sighting and
the aircraft record, plus the returned rarity flag (0 or 1). -/
structure UpdRes where
  db : Dashboard
  s : AircraftSighting
  ac : AircraftRecord
  flag : ℕ

/-- Make of the aircraft type resolved from the reference table; Go map
indexing yields the zero value (empty make) on a miss. -/
def getMake (tbl : String → Option IcaoAircraft) (ac : AircraftRecord) : String :=
  match tbl ac.IcaoType with
  | some r => r.Make
  | none => ""

/-- updateType of the dashboard source: resolve the type, record the tally
and classify its rarity, skipping when the type is known and the flight is
not new. -/
def updateType (ext : ExtFns) (db : Dashboard) (s : AircraftSighting)
    (ac : AircraftRecord) (isNewFlight : Bool) : UpdRes :=
  let s := if s.typeShort = "" ∧ ac.Description ≠ "" then { s with typeShort := ac.Description } else s
  if s.typeDesc ≠ typeUnknown ∧ isNewFlight = false then
    ⟨db, s, { ac with CachedType := s.typeDesc }, 0⟩
  else
    let aType := getMake db.IcaoToAircraft ac
    if aType = "" then ⟨db, s, ac, 0⟩
    else
      let s := { s with typeDesc := aType }
      let ac := { ac with CachedType := aType }
      let cnt := db.SeenTypeCount aType + 1
      let db' := { db with
        SeenTypeCount := fun k => if k = aType then cnt else db.SeenTypeCount k
        totalTypeCount := db.totalTypeCount + 1 }
      ⟨db', s, ac, if ext.rare cnt db'.totalTypeCount then 1 else 0⟩

/-- Operator resolution chain of updateOperator: airline table by flight
code, then military-code table, then the ownOp field. -/
def resolveOperator (airline : String → Option IcaoOperator)
    (mil : String → Option String) (ac : AircraftRecord) (op0 : String) : String :=
  let flightCode := getFlightNoAsIcaoCode ac
  let op1 :=
    if flightCode ≠ flightUnknownCode then
      match airline flightCode with
      | some r => r.Company
      | none => op0
    else op0
  let op2 :=
    if op1 = operatorUnknown then
      match mil flightCode with
      | some m => m
      | none => op1
    else op1
  if op2 = operatorUnknown ∧ ac.OwnOp ≠ "" then ac.OwnOp else op2

/-- updateOperator of the dashboard source: resolve the operator through the
fallback chain, record the tally and classify rarity. -/
def updateOperator (ext : ExtFns) (db : Dashboard) (s : AircraftSighting)
    (ac : AircraftRecord) (isNewFlight : Bool) : UpdRes :=
  if s.operator ≠ operatorUnknown ∧ isNewFlight = false then ⟨db, s, ac, 0⟩
  else if ac.Flight = "" then ⟨db, s, ac, 0⟩
  else
    let s := { s with operator := resolveOperator db.IcaoToAirline db.milCodeToOperator ac s.operator }
    if s.operator = operatorUnknown then ⟨db, s, ac, 0⟩
    else
      let cnt := db.SeenOperatorCount s.operator + 1
      let db' := { db with
        SeenOperatorCount := fun k => if k = s.operator then cnt else db.SeenOperatorCount k
        totalOperatorCount := db.totalOperatorCount + 1 }
      ⟨db', s, ac, if ext.rare cnt db'.totalOperatorCount then 1 else 0⟩

/-- Country resolution chain of updateCountry: airline table country by
flight code, then hex-range table, then registration-prefix table; every
assigned value passes through ToUpper exactly as in the source. -/
def resolveCountry (airline : String → Option IcaoOperator)
    (hexRanges : List (HexRange × String)) (regPrefixes : List (String × String))
    (ac : AircraftRecord) (c0 : String) : String :=
  let flightCode := getFlightNoAsIcaoCode ac
  let c1 :=
    if flightCode ≠ flightUnknownCode then
      match airline flightCode with
      | some r => toUpperGo r.Country
      | none => c0
    else c0
  let c2 :=
    if c1 = countryUnknown then toUpperGo (getCountryByHexRange hexRanges ac.Hex)
    else c1
  let c3 :=
    if c2 = countryUnknown then
      match lookupRegPrefixCountry regPrefixes ac.Registration with
      | some c => toUpperGo c
      | none => c2
    else c2
  c3

/-- updateCountry of the dashboard source: resolve the country through the
fallback chain, record the tally and classify rarity. -/
def updateCountry (ext : ExtFns) (db : Dashboard) (s : AircraftSighting)
    (ac : AircraftRecord) (isNewFlight : Bool) : UpdRes :=
  if s.country ≠ countryUnknown ∧ isNewFlight = false then ⟨db, s, ac, 0⟩
  else if ac.Flight = "" then ⟨db, s, ac, 0⟩
  else
    let s := { s with country := resolveCountry db.IcaoToAirline db.hexRangeToCountry db.regPrefixToCountry ac s.country }
    if s.country = countryUnknown then ⟨db, s, ac, 0⟩
    else
      let cnt := db.SeenCountryCount s.country + 1
      let db' := { db with
        SeenCountryCount := fun k => if k = s.country then cnt else db.SeenCountryCount k
        totalCountryCount := db.totalCountryCount + 1 }
      ⟨db', s, ac, if ext.rare cnt db'.totalCountryCount then 1 else 0⟩

/-- Numeric value of an alt_baro field, when it holds a float64. -/
def altBaroAsFloat : AltBaro → Option ℚ
  | AltBaro.flt a => some a
  | _ => none

/-- updateHighest: replace the highest-ever slot unless the candidate has a
non-numeric altitude or the held record's altitude strictly exceeds it.  The
source reads the held record's altitude with an unchecked float64 type
assertion; the invariant proved below shows the held altitude is always
numeric, so the default value of the totalised read is never used. -/
def updateHighest (db : Dashboard) (ac : AircraftRecord) : Dashboard :=
  match altBaroAsFloat ac.AltBaro with
  | none => db
  | some thisAltitude =>
    match db.Highest with
    | none => { db with Highest := some ac }
    | some h =>
      if (altBaroAsFloat h.AltBaro).getD 0 > thisAltitude then db
      else { db with Highest := some ac }

/-- updateFastest: replace the fastest-ever slot unless the held record's
ground speed strictly exceeds the candidate's. -/
def updateFastest (db : Dashboard) (ac : AircraftRecord) : Dashboard :=
  match db.Fastest with
  | none => { db with Fastest := some ac }
  | some f =>
    if f.GroundSpeed > ac.GroundSpeed then db
    else { db with Fastest := some ac }

/-- Flight-continuity decision of processCivAircraftRecords: computes the
isNewFlight flag and updates the stored flight number when it became known
or changed. -/
def continuityStep (exists' : Bool) (s : AircraftSighting) (thisFlightNo : String) :
    Bool × AircraftSighting :=
  let isFlightIdentified := (s.lastFlightNo == flightUnknown) && (thisFlightNo != flightUnknown)
  let isFlightUpdated := (s.lastFlightNo != flightUnknown) && (thisFlightNo != flightUnknown)
    && (s.lastFlightNo != thisFlightNo)
  let isNewFlight := !exists' || isFlightUpdated
  let s' := if isFlightIdentified || isFlightUpdated then { s with lastFlightNo := thisFlightNo } else s
  (isNewFlight, s')

/-- Sentinel returned by getDirection when the loop exhausts all sectors. -/
def dirUnknown : String := "unknown"

/-- Name of the north compass point. -/
def dirN : String := "north"

/-- Table of the 32 compass point names, in clockwise order from north. -/
def directions : List String :=
  [dirN, "north by east", "north-northeast", "northeast by north",
   "northeast", "northeast by east", "east-northeast", "east by north",
   "east", "east by south", "east-southeast", "southeast by east",
   "southeast", "southeast by south", "south-southeast", "south by east",
   "south", "south by west", "south-southwest", "southwest by south",
   "southwest", "southwest by west", "west-southwest", "west by south",
   "west", "west by north", "west-northwest", "northwest by west",
   "northwest", "northwest by north", "north-northwest", "north by west"]

/-- Loop of getDirection: walk the direction table advancing the sector
boundary by 11.25 degrees, returning the first direction whose boundary the
bearing does not exceed. -/
def getDirectionLoop (bearing : ℚ) : ℚ → List String → String
  | _, [] => dirUnknown
  | start, d :: rest =>
    if bearing ≤ start then d else getDirectionLoop bearing (start + 45/4) rest

/-- Sector mapping of getDirection, taking the already computed bearing: the
loop starts at the boundary 5.625 degrees and iterates over all 32 compass
points.  In the source, getDirection applies this to the bearing computed by
calculateBearing. -/
def getDirectionOfBearing (bearing : ℚ) : String :=
  getDirectionLoop bearing (45/8) directions

/-- Head of the loop body of processCivAircraftRecords: retrieve the prior
sighting for the hex id or create a fresh one, fix up a missing
registration, and decide flight continuity.  The loop body is split here
into named stages (head, classifier cascade, tail); their composition in
processRecord follows the source line by line.  A rarity event holds the
final value of the iteration's sighting (the source appends a pointer to
the loop variable and sets the info field afterwards, so the event observes
the final value), and processRecord returns the updated record because the
source mutates the record inside the CurrentAircraft slice through a
pointer. -/
def resolveSighting (ext : ExtFns) (now : ℚ) (db : Dashboard) (ac0 : AircraftRecord) :
    Bool × AircraftSighting :=
  let lastSeenTime := now - ac0.Seen
  let prior := db.aircraftSightings ac0.Hex
  let exists' := prior.isSome
  let s :=
    match prior with
    | some s => s
    | none =>
      { lastSeen := lastSeenTime
        lastFlightNo := flightUnknown
        registration := ac0.Registration
        latitude := ac0.Lat
        longitude := ac0.Lon
        direction := getDirectionOfBearing (ext.bearing db.Lat db.Lon ac0.Lat ac0.Lon)
        distance := 0
        typeShort := ""
        typeDesc := typeUnknown
        operator := operatorUnknown
        country := countryUnknown
        info := "" }
  let s := if s.registration = "" then { s with registration := ac0.Registration } else s
  continuityStep exists' s (getFlightNoAsStr ac0)

/-- Classifier cascade of the loop body: type, operator and country updates
in order, with the three flag bits combined into the RarityFlag value. -/
def processClassifiers (ext : ExtFns) (db : Dashboard) (s : AircraftSighting)
    (ac : AircraftRecord) (isNewFlight : Bool) : UpdRes :=
  let r1 := updateType ext db s ac isNewFlight
  let r2 := updateOperator ext r1.db r1.s r1.ac isNewFlight
  let r3 := updateCountry ext r2.db r2.s r2.ac isNewFlight
  ⟨r3.db, r3.s, r3.ac, (r1.flag <<< 0) ||| (r2.flag <<< 1) ||| (r3.flag <<< 2)⟩

/-- Tail of the loop body after the sighting has been resolved: extremes,
classifier cascade, event emission and persisting the sighting under the
observation's hex id. -/
def processTail (ext : ExtFns) (db : Dashboard) (s : AircraftSighting)
    (ac : AircraftRecord) (hex : String) (isNewFlight : Bool) :
    Dashboard × AircraftRecord :=
  let db := updateHighest db ac
  let db := updateFastest db ac
  let r := processClassifiers ext db s ac isNewFlight
  let sF := { r.s with info := ext.render r.ac }
  let db2 :=
    if r.flag ≠ 0 then
      { r.db with RareSightings := r.db.RareSightings ++ [⟨r.flag, sF⟩] }
    else r.db
  ({ db2 with aircraftSightings := fun h => if h = hex then some sF else db2.aircraftSightings h },
   r.ac)

/-- Loop body assembled: resolve or create the sighting, decide flight
continuity, cache the distance, then run the tail. -/
def processRecord (ext : ExtFns) (now : ℚ) (db : Dashboard) (ac0 : AircraftRecord) :
    Dashboard × AircraftRecord :=
  let cs := resolveSighting ext now db ac0
  let dist := ext.distanceKm db.Lat db.Lon ac0.Lat ac0.Lon
  processTail ext db { cs.2 with distance := dist } { ac0 with CachedDist := dist } ac0.Hex cs.1

/-- Insertion of an aircraft record into a list sorted by flight number. -/
def insertByFlight (a : AircraftRecord) : List AircraftRecord → List AircraftRecord
  | [] => [a]
  | b :: rest => if a.Flight < b.Flight then a :: b :: rest else b :: insertByFlight a rest

/-- Sort of a batch by flight number (the ByFlight comparator of the source;
the Go sort is unstable and all theorems below hold for any order, so a
simple insertion sort stands in for it). -/
def sortByFlight : List AircraftRecord → List AircraftRecord
  | [] => []
  | a :: rest => insertByFlight a (sortByFlight rest)

/-- Process a list of records in order, threading the dashboard and
collecting the mutated records of the CurrentAircraft slice. -/
def processRecords (ext : ExtFns) (now : ℚ) : Dashboard → List AircraftRecord → Dashboard × List AircraftRecord
  | db, [] => (db, [])
  | db, ac :: rest =>
    let r := processRecord ext now db ac
    let rr := processRecords ext now r.1 rest
    (rr.1, r.2 :: rr.2)

/-- processCivAircraftRecords: sort the current batch by flight number,
process every record, and replace the RareSightings list with the events of
this cycle (the source accumulates them in a local slice and assigns it at
the end). -/
def processCivAircraftRecords (ext : ExtFns) (now : ℚ) (db : Dashboard) : Dashboard :=
  let sorted := sortByFlight db.CurrentAircraft
  let r := processRecords ext now { db with CurrentAircraft := sorted, RareSightings := [] } sorted
  { r.1 with CurrentAircraft := r.2 }

/-- ProcessCivAircraftJSON after a successful unmarshal: an empty aircraft
list is a silent no-op, otherwise the batch becomes CurrentAircraft and is
processed. -/
def ingest (ext : ExtFns) (now : ℚ) (db : Dashboard) (batch : List AircraftRecord) : Dashboard :=
  if batch.isEmpty then db
  else processCivAircraftRecords ext now { db with CurrentAircraft := batch }

/-- Run of a sequence of ingest cycles, each with its own batch generation
time and batch. -/
def runSequence (ext : ExtFns) : Dashboard → List (ℚ × List AircraftRecord) → Dashboard
  | db, [] => db
  | db, (now, batch) :: rest => runSequence ext (ingest ext now db batch) rest

/-- Round a nonnegative fraction a/b (b positive) to the nearest integer,
ties to even. -/
def rneNat (a b : ℕ) : ℕ :=
  let f := a / b
  let r := a % b
  if 2 * r < b then f
  else if b < 2 * r then f + 1
  else if f % 2 = 0 then f else f + 1

/-- Base-2 logarithm with explicit fuel (structural recursion). -/
def log2Fuel : ℕ → ℕ → ℕ
  | 0, _ => 0
  | fuel + 1, n => if 2 ≤ n then log2Fuel fuel (n / 2) + 1 else 0

/-- Floor of the base-2 logarithm of n (zero for n below two). -/
def natLog2 (n : ℕ) : ℕ := log2Fuel n n

/-- Decide whether 2 to the power d is at most a/b, for positive a and b. -/
def pow2LeFrac (d : ℤ) (a b : ℕ) : Bool :=
  if 0 ≤ d then decide (2 ^ d.toNat * b ≤ a) else decide (b ≤ a * 2 ^ (-d).toNat)

/-- IEEE-754 binary32 rounding (round to nearest, ties to even) of the
positive fraction a/b, returned as a significand-exponent pair (m, e) whose
value is m times 2 to the power e, with m the rounded 24-bit significand.
This models the value of a Go float32 conversion or arithmetic result for
the positive normal-range magnitudes handled by the ratio classifier. -/
def f32OfFrac (a b : ℕ) : ℕ × ℤ :=
  let d : ℤ := (natLog2 a : ℤ) - (natLog2 b : ℤ)
  let k : ℤ := if pow2LeFrac d a b then d else d - 1
  let e : ℤ := 23 - k
  let m : ℕ := if 0 ≤ e then rneNat (a * 2 ^ e.toNat) b else rneNat a (b * 2 ^ (-e).toNat)
  (m, k - 23)

/-- Exact fraction of two significand-exponent values x / y. -/
def fracOfDiv (x y : ℕ × ℤ) : ℕ × ℕ :=
  let e := x.2 - y.2
  if 0 ≤ e then (x.1 * 2 ^ e.toNat, y.1) else (x.1, y.1 * 2 ^ (-e).toNat)

/-- Strict comparison of the values of two significand-exponent pairs. -/
def f32Lt (x y : ℕ × ℤ) : Bool :=
  let e := x.2 - y.2
  if 0 ≤ e then decide (x.1 * 2 ^ e.toNat < y.1) else decide (x.1 < y.1 * 2 ^ (-e).toNat)

/-- Float32 type rarity of internal/dashboard.go processCivAircraftRecords:
float32 division of the float32 conversions of the incremented tally and the
incremented total, as a significand-exponent pair. -/
def typeRarityF32 (count total : ℕ) : ℕ × ℤ :=
  let q := fracOfDiv (f32OfFrac count 1) (f32OfFrac total 1)
  f32OfFrac q.1 q.2

/-- Ratio-policy rarity decision of internal/dashboard.go: rare when the
float32 ratio is strictly below the float32 value of the untyped constant
threshold 0.01, which converts to float32 as the rounding of 1/100. -/
def isRareTypeRatioF32 (count total : ℕ) : Bool :=
  f32Lt (typeRarityF32 count total) (f32OfFrac 1 100)

/-- Equality of the six rarity-tally fields of two dashboards. -/
def TalliesEq (d e : Dashboard) : Prop :=
  d.SeenTypeCount = e.SeenTypeCount ∧ d.SeenOperatorCount = e.SeenOperatorCount ∧
  d.SeenCountryCount = e.SeenCountryCount ∧ d.totalTypeCount = e.totalTypeCount ∧
  d.totalOperatorCount = e.totalOperatorCount ∧ d.totalCountryCount = e.totalCountryCount

/-- Pointwise ordering of the six rarity-tally fields of two dashboards. -/
def TalliesLe (d e : Dashboard) : Prop :=
  (∀ k, d.SeenTypeCount k ≤ e.SeenTypeCount k) ∧
  (∀ k, d.SeenOperatorCount k ≤ e.SeenOperatorCount k) ∧
  (∀ k, d.SeenCountryCount k ≤ e.SeenCountryCount k) ∧
  d.totalTypeCount ≤ e.totalTypeCount ∧
  d.totalOperatorCount ≤ e.totalOperatorCount ∧
  d.totalCountryCount ≤ e.totalCountryCount

/-- Agreement of two dashboards on every field except the warm-up flag. -/
def EqExceptWarmup (d e : Dashboard) : Prop :=
  d.Lat = e.Lat ∧ d.Lon = e.Lon ∧ d.Fastest = e.Fastest ∧ d.Highest = e.Highest ∧
  d.CurrentAircraft = e.CurrentAircraft ∧ d.RareSightings = e.RareSightings ∧
  d.aircraftSightings = e.aircraftSightings ∧ d.totalTypeCount = e.totalTypeCount ∧
  d.totalOperatorCount = e.totalOperatorCount ∧ d.totalCountryCount = e.totalCountryCount ∧
  d.SeenTypeCount = e.SeenTypeCount ∧ d.SeenOperatorCount = e.SeenOperatorCount ∧
  d.SeenCountryCount = e.SeenCountryCount ∧ d.IcaoToAircraft = e.IcaoToAircraft ∧
  d.IcaoToAirline = e.IcaoToAirline ∧ d.regPrefixToCountry = e.regPrefixToCountry ∧
  d.hexRangeToCountry = e.hexRangeToCountry ∧ d.milCodeToOperator = e.milCodeToOperator

/-- Equality of the five injected reference tables of two dashboards. -/
def TablesEq (d e : Dashboard) : Prop :=
  d.IcaoToAircraft = e.IcaoToAircraft ∧ d.IcaoToAirline = e.IcaoToAirline ∧
  d.milCodeToOperator = e.milCodeToOperator ∧ d.hexRangeToCountry = e.hexRangeToCountry ∧
  d.regPrefixToCountry = e.regPrefixToCountry

/-- Invariant of the highest-ever slot: whenever it is occupied, the held
record's barometric altitude is numeric, so the unchecked float64 type
assertion of updateHighest cannot fail. -/
def HighestNumeric (db : Dashboard) : Prop :=
  ∀ a, db.Highest = some a → ∃ q, a.AltBaro = AltBaro.flt q

/-- Invariant of the continuity loop for a fixed observation: the dashboard
carries the reference tables of `tb` and stores under the observation's hex
id a sighting whose flight number matches the observation and whose three
classifier fields are each either already resolved or unresolvable from the
tables, so that the next identical cycle is silent. -/
def ContinuityInv (tb : Dashboard) (ac : AircraftRecord) (d : Dashboard) : Prop :=
  TablesEq d tb ∧
  ∃ sF, d.aircraftSightings ac.Hex = some sF ∧
    sF.lastFlightNo = getFlightNoAsStr ac ∧
    (sF.typeDesc ≠ typeUnknown ∨ getMake tb.IcaoToAircraft ac = "") ∧
    (sF.operator ≠ operatorUnknown ∨ ac.Flight = "" ∨
      resolveOperator tb.IcaoToAirline tb.milCodeToOperator ac operatorUnknown = operatorUnknown) ∧
    (sF.country ≠ countryUnknown ∨ ac.Flight = "" ∨
      resolveCountry tb.IcaoToAirline tb.hexRangeToCountry tb.regPrefixToCountry ac
        countryUnknown = countryUnknown)

/-- External functions with trivial geometry and a rarity test that never
fires (it agrees with the float64 logarithmic test whenever the total stays
at or below the threshold knee). -/
def extZero : ExtFns :=
  { bearing := fun _ _ _ _ => 0
    distanceKm := fun _ _ _ _ => 0
    render := fun _ => ""
    rare := fun _ _ => false }

/-- External functions whose rarity test agrees with the float64 logarithmic
test float64 c < Real.log t - 6 at every pair probed by the repeated-cycle
counterexample: at (1, 3001) the test gives 1 < 2.0067, true, and at
(2, 3002) it gives 2 < 2.0070, true; at every pair with total at most 3000
the log bound is at most 2.0067 and the counterexample never probes those
with count below 3. -/
def extLogKnee : ExtFns :=
  { extZero with rare := fun c t => decide (c ≤ 2 ∧ 3001 ≤ t) }

/-- Aircraft record with every field empty or absent. -/
def emptyRecord : AircraftRecord :=
  { AltBaro := AltBaro.nil
    Flight := ""
    GroundSpeed := 0
    Hex := ""
    Lat := 0
    Lon := 0
    Registration := ""
    Seen := 0
    IcaoType := ""
    OwnOp := ""
    Description := ""
    CachedDist := 0
    CachedType := "" }

/-- Freshly created sighting, exactly as the creation branch of
processCivAircraftRecords initialises it for an empty observation. -/
def freshSighting : AircraftSighting :=
  { lastSeen := 0
    lastFlightNo := flightUnknown
    registration := ""
    latitude := 0
    longitude := 0
    direction := ""
    distance := 0
    typeShort := ""
    typeDesc := typeUnknown
    operator := operatorUnknown
    country := countryUnknown
    info := "" }

/-- Dashboard whose reference tables are all empty. -/
def emptyTablesDashboard : Dashboard :=
  newDashboard 0 0 (fun _ => none) (fun _ => none) [] [] (fun _ => none)

/-- Observation whose flight number is known but whose country is not
resolvable by any strategy: the code XYZ is in no operator table, the hex id
zz does not parse as hexadecimal, and the registration is empty. -/
def acUnresolvable : AircraftRecord :=
  { emptyRecord with Flight := "XYZ123", Hex := "zz" }

/-- Registration-prefix table mapping the prefix 9V to Singapore. -/
def regPrefixSG : List (String × String) := [("9V", "Singapore")]

/-- Dashboard whose only nonempty table is the registration-prefix table. -/
def dbRegPrefix : Dashboard :=
  newDashboard 0 0 (fun _ => none) (fun _ => none) regPrefixSG [] (fun _ => none)

/-- Observation whose registration 9V-ABC matches the Singapore prefix while
the operator code and the hex id resolve nothing. -/
def acRegSG : AircraftRecord :=
  { emptyRecord with Flight := "XYZ123", Hex := "zz", Registration := "9V-ABC" }

/-- Observation with a known, fixed flight number and the type code A320. -/
def acSQ : AircraftRecord :=
  { emptyRecord with
    Flight := "SQ123"
    GroundSpeed := 400
    Hex := "76cd01"
    Registration := "9V-ABC"
    IcaoType := "A320" }

/-- Dashboard whose type table resolves A320 to the make string unknown
(colliding with the type sentinel) and whose type total sits just below the
logarithmic threshold knee. -/
def dbMakeUnknown : Dashboard :=
  { newDashboard 0 0 (fun t => if t = "A320" then some ⟨"L2J", "Jet", "unknown"⟩ else none)
      (fun _ => none) [] [] (fun _ => none) with
    totalTypeCount := 3000 }

/-- Aircraft at barometric altitude 100 with hex id aaa111. -/
def acAlt100A : AircraftRecord :=
  { emptyRecord with AltBaro := AltBaro.flt 100, GroundSpeed := 10, Hex := "aaa111" }

/-- Second aircraft at the same altitude 100 and speed 10, hex id bbb222. -/
def acAlt100B : AircraftRecord :=
  { emptyRecord with AltBaro := AltBaro.flt 100, GroundSpeed := 10, Hex := "bbb222" }

/-- Dashboard currently holding the first altitude-100 aircraft in both
extreme slots. -/
def dbTie : Dashboard :=
  { emptyTablesDashboard with Highest := some acAlt100A, Fastest := some acAlt100A }

/-- C1: an observation is treated as a new flight exactly when no prior
sighting exists or the stored and the observed flight numbers are both
known and differ; the unknown-to-known transition is not a new flight but
does update the stored flight number. -/
theorem flight_continuity_rule :
    (∀ (exists' : Bool) (s : AircraftSighting) (thisFlightNo : String),
      ((continuityStep exists' s thisFlightNo).1 = true ↔
        (exists' = false ∨ (s.lastFlightNo ≠ flightUnknown ∧ thisFlightNo ≠ flightUnknown ∧
          s.lastFlightNo ≠ thisFlightNo)))) ∧
    (∀ (s : AircraftSighting) (thisFlightNo : String),
      s.lastFlightNo = flightUnknown → thisFlightNo ≠ flightUnknown →
        (continuityStep true s thisFlightNo).1 = false ∧
        ((continuityStep true s thisFlightNo).2).lastFlightNo = thisFlightNo) := by
  constructor
  · intro e s t
    cases e <;> simp [continuityStep, and_assoc]
  · intro s t h1 h2
    simp [continuityStep, h1, h2]

/-- Witness for flight_continuity_rule: a stored sighting with unknown
flight number meeting the observed flight number SQ123 is not a new flight,
and the stored flight number becomes SQ123. -/
theorem flight_continuity_rule_witness :
    (continuityStep true freshSighting "SQ123").1 = false ∧
    ((continuityStep true freshSighting "SQD123").2).lastFlightNo = "SQD123" :=
  ⟨(flight_continuity_rule.2 freshSighting "SQ123" rfl (by decide)).1,
   (flight_continuity_rule.2 freshSighting "SQD123" rfl (by decide)).2⟩

/-- C8: under the float32 ratio policy of internal/dashboard.go with
threshold 0.01, a tally of 1 out of 100 is not rare (the rarity condition is
a strict comparison and the two float32 values coincide), while 1 out of 101
is rare. -/
theorem ratio_threshold_boundary :
    isRareTypeRatioF32 1 100 = false ∧ isRareTypeRatioF32 1 101 = true := by decide

set_option maxRecDepth 4000 in
/-- C6: the sector mapping never wraps the final half-sector of north: the
bearing 359, although inside the claimed domain, falls through the loop and
yields the unknown sentinel, which is not one of the 32 compass points, so
bearings just below 360 degrees do not map to north. -/
theorem sector_mapping_gap :
    (0 ≤ (359 : ℚ) ∧ (359 : ℚ) < 360) ∧
    getDirectionOfBearing 359 = dirUnknown ∧
    dirUnknown ∉ directions ∧ getDirectionOfBearing 359 ≠ dirN := by
  refine ⟨by norm_num, ?_, by decide, ?_⟩
  · norm_num [getDirectionOfBearing, getDirectionLoop, directions]
  · norm_num [getDirectionOfBearing, getDirectionLoop, directions, dirUnknown, dirN]
    decide

/-- C2: an observation whose country is not resolvable by any of the three
strategies still mutates the country tallies: the hex-range step uppercases
the unknown sentinel into UNKNOWN, the final unresolved check no longer
fires, and the tally for the key UNKNOWN together with the country total is
incremented (here evaluated at a concrete unresolvable observation against
empty tables, starting from zero tallies). -/
theorem country_unresolvable_mutates_tally :
    resolveCountry (fun _ => none) [] [] acUnresolvable countryUnknown = "UNKNOWN" ∧
    (updateCountry extZero emptyTablesDashboard freshSighting acUnresolvable true).db.totalCountryCount = 1 ∧
    (updateCountry extZero emptyTablesDashboard freshSighting acUnresolvable true).db.SeenCountryCount "UNKNOWN" = 1 ∧
    (updateCountry extZero emptyTablesDashboard freshSighting acUnresolvable true).s.country = "UNKNOWN" ∧
    emptyTablesDashboard.totalCountryCount = 0 ∧
    (∀ k, emptyTablesDashboard.SeenCountryCount k = 0) := by
  refine ⟨by decide, by decide, by decide, by decide, by decide, fun k => rfl⟩

/-- C7: the registration-prefix fallback of the country chain is
unreachable: for an observation whose registration 9V-ABC alone identifies
Singapore while the operator code and the hex id resolve nothing, the
prefix table lookup succeeds, yet the chain assigns the uppercased unknown
sentinel produced by the hex-range step instead of SINGAPORE. -/
theorem country_regprefix_unreachable :
    lookupRegPrefixCountry regPrefixSG acRegSG.Registration = some "Singapore" ∧
    dbRegPrefix.IcaoToAirline (getFlightNoAsIcaoCode acRegSG) = none ∧
    getCountryByHexRange dbRegPrefix.hexRangeToCountry acRegSG.Hex = countryUnknown ∧
    resolveCountry dbRegPrefix.IcaoToAirline dbRegPrefix.hexRangeToCountry
      dbRegPrefix.regPrefixToCountry acRegSG countryUnknown = "UNKNOWN" ∧
    (updateCountry extZero dbRegPrefix freshSighting acRegSG true).s.country = "UNKNOWN" ∧
    (updateCountry extZero dbRegPrefix freshSighting acRegSG true).s.country ≠ "SINGAPORE" := by
  decide

/-- Counterexample to C3 as stated: when the type table resolves the type
code to the literal make unknown, the stored type description equals the
type sentinel every cycle, so ingesting the identical single-aircraft batch
with an unchanged known flight number re-increments the type tally and
emits a rarity event on the second cycle as well; the instantiated rarity
test agrees with the float64 logarithmic test at both probed pairs. -/
theorem continuity_idempotence_cex :
    getFlightNoAsStr acSQ ≠ flightUnknown ∧
    (ingest extLogKnee 0 dbMakeUnknown [acSQ]).RareSightings.length = 1 ∧
    (ingest extLogKnee 0 (ingest extLogKnee 0 dbMakeUnknown [acSQ]) [acSQ]).RareSightings.length = 1 ∧
    (ingest extLogKnee 0 dbMakeUnknown [acSQ]).SeenTypeCount "unknown" = 1 ∧
    (ingest extLogKnee 0 (ingest extLogKnee 0 dbMakeUnknown [acSQ]) [acSQ]).SeenTypeCount "unknown" = 2 := by
  decide

/-- Counterexample to C5 as stated: an aircraft whose altitude merely equals
the held extreme (and does not strictly exceed it) still replaces the
highest-ever slot, and likewise for the fastest-ever slot on equal ground
speed. -/
theorem extremes_tie_cex :
    dbTie.Highest = some acAlt100A ∧ acAlt100A.AltBaro = AltBaro.flt 100 ∧
    acAlt100B.AltBaro = AltBaro.flt 100 ∧ ¬ ((100 : ℚ) > 100) ∧
    (updateHighest dbTie acAlt100B).Highest = some acAlt100B ∧
    acAlt100B.Hex ≠ acAlt100A.Hex ∧
    dbTie.Fastest = some acAlt100A ∧ acAlt100A.GroundSpeed = 10 ∧
    acAlt100B.GroundSpeed = 10 ∧
    (updateFastest dbTie acAlt100B).Fastest = some acAlt100B := by
  refine ⟨rfl, rfl, rfl, by norm_num, by decide, by decide, rfl, rfl, rfl, by decide⟩

/-- C5 amended: the highest-ever extreme is replaced exactly when the
candidate has a numeric altitude at least the held altitude (ties replace),
a non-numeric altitude never replaces it, a strictly lower altitude leaves
it unchanged, an empty slot is always filled, and the fastest-ever slot
behaves the same way over ground speed. -/
theorem extremes_update_amended :
    (∀ (db : Dashboard) (ac : AircraftRecord), altBaroAsFloat ac.AltBaro = none →
        updateHighest db ac = db) ∧
    (∀ (db : Dashboard) (ac : AircraftRecord) (a : ℚ), ac.AltBaro = AltBaro.flt a →
        db.Highest = none → (updateHighest db ac).Highest = some ac) ∧
    (∀ (db : Dashboard) (ac h : AircraftRecord) (a b : ℚ), ac.AltBaro = AltBaro.flt a →
        db.Highest = some h → h.AltBaro = AltBaro.flt b →
        (b > a → updateHighest db ac = db) ∧
        (a ≥ b → (updateHighest db ac).Highest = some ac)) ∧
    (∀ (db : Dashboard) (ac : AircraftRecord), db.Fastest = none →
        (updateFastest db ac).Fastest = some ac) ∧
    (∀ (db : Dashboard) (ac f : AircraftRecord), db.Fastest = some f →
        (f.GroundSpeed > ac.GroundSpeed → updateFastest db ac = db) ∧
        (ac.GroundSpeed ≥ f.GroundSpeed → (updateFastest db ac).Fastest = some ac)) := by
  refine ⟨?_, ?_, ?_, ?_, ?_⟩
  · intro db ac h
    simp [updateHighest, h]
  · intro db ac a ha hh
    simp [updateHighest, ha, hh, altBaroAsFloat]
  · intro db ac h a b ha hh hb
    constructor
    · intro hgt
      simp [updateHighest, ha, hh, hb, altBaroAsFloat, hgt]
    · intro hge
      simp [updateHighest, ha, hh, hb, altBaroAsFloat, not_lt.mpr hge]
  · intro db ac h
    simp [updateFastest, h]
  · intro db ac f hf
    constructor
    · intro hgt
      simp [updateFastest, hf, hgt]
    · intro hge
      simp [updateFastest, hf, not_lt.mpr hge]

/-- Witness for extremes_update_amended: a tie on altitude replaces the
highest slot and a strictly slower aircraft leaves the fastest slot
unchanged. -/
theorem extremes_update_amended_witness :
    altBaroAsFloat acAlt100B.AltBaro ≠ none ∧
    dbTie.Highest = some acAlt100A ∧ acAlt100A.AltBaro = AltBaro.flt 100 ∧ (100 : ℚ) ≥ 100 ∧
    (updateHighest dbTie acAlt100B).Highest = some acAlt100B ∧
    updateFastest dbTie { acAlt100B with GroundSpeed := 5 } = dbTie :=
  ⟨by decide, rfl, rfl, le_refl 100,
   ((extremes_update_amended.2.2.1 dbTie acAlt100B acAlt100A 100 100 rfl rfl rfl).2 (le_refl 100)),
   ((extremes_update_amended.2.2.2.2 dbTie { acAlt100B with GroundSpeed := 5 } acAlt100A rfl).1 (by decide))⟩

/-- Helper: a pointwise function update with a larger value dominates. -/
lemma le_update (g : String → ℕ) (a : String) (v : ℕ) (hv : g a ≤ v) (k : String) :
    g k ≤ (fun x => if x = a then v else g x) k := by
  dsimp only
  split
  · next h => rw [h]; exact hv
  · exact le_refl _

/-- Reflexivity of the tally ordering. -/
lemma talliesLe_refl (d : Dashboard) : TalliesLe d d :=
  ⟨fun _ => le_refl _, fun _ => le_refl _, fun _ => le_refl _, le_refl _, le_refl _, le_refl _⟩

/-- Transitivity of the tally ordering. -/
lemma talliesLe_trans {d e f : Dashboard} (h1 : TalliesLe d e) (h2 : TalliesLe e f) :
    TalliesLe d f :=
  ⟨fun k => le_trans (h1.1 k) (h2.1 k), fun k => le_trans (h1.2.1 k) (h2.2.1 k),
   fun k => le_trans (h1.2.2.1 k) (h2.2.2.1 k), le_trans h1.2.2.2.1 h2.2.2.2.1,
   le_trans h1.2.2.2.2.1 h2.2.2.2.2.1, le_trans h1.2.2.2.2.2 h2.2.2.2.2.2⟩

/-- Tally equality gives the tally ordering. -/
lemma talliesLe_of_eq {d e : Dashboard} (h : TalliesEq d e) : TalliesLe e d := by
  obtain ⟨h1, h2, h3, h4, h5, h6⟩ := h
  exact ⟨fun k => by rw [h1], fun k => by rw [h2], fun k => by rw [h3],
    le_of_eq h4.symm, le_of_eq h5.symm, le_of_eq h6.symm⟩

/-- Frame of updateType: everything except the type tallies, the sighting's
type fields and the record's cached type is preserved, and the type tallies
never decrease. -/
lemma updateType_frame (ext : ExtFns) (db : Dashboard) (s : AircraftSighting)
    (ac : AircraftRecord) (f : Bool) :
    ((updateType ext db s ac f).db.isWarmup = db.isWarmup) ∧
    ((updateType ext db s ac f).db.Fastest = db.Fastest) ∧
    ((updateType ext db s ac f).db.Highest = db.Highest) ∧
    ((updateType ext db s ac f).db.RareSightings = db.RareSightings) ∧
    ((updateType ext db s ac f).db.aircraftSightings = db.aircraftSightings) ∧
    TablesEq (updateType ext db s ac f).db db ∧
    TalliesLe db (updateType ext db s ac f).db ∧
    ((updateType ext db s ac f).db.SeenOperatorCount = db.SeenOperatorCount) ∧
    ((updateType ext db s ac f).db.SeenCountryCount = db.SeenCountryCount) ∧
    ((updateType ext db s ac f).db.totalOperatorCount = db.totalOperatorCount) ∧
    ((updateType ext db s ac f).db.totalCountryCount = db.totalCountryCount) ∧
    ((updateType ext db s ac f).s.lastFlightNo = s.lastFlightNo) ∧
    ((updateType ext db s ac f).s.operator = s.operator) ∧
    ((updateType ext db s ac f).s.country = s.country) := by
  simp only [updateType, TablesEq, TalliesLe]
  split_ifs <;>
    first
    | exact ⟨rfl, rfl, rfl, rfl, rfl, ⟨rfl, rfl, rfl, rfl, rfl⟩,
        ⟨fun k => le_refl _, fun k => le_refl _, fun k => le_refl _, le_refl _, le_refl _, le_refl _⟩,
        rfl, rfl, rfl, rfl, rfl, rfl, rfl⟩
    | exact ⟨rfl, rfl, rfl, rfl, rfl, ⟨rfl, rfl, rfl, rfl, rfl⟩,
        ⟨fun k => le_update _ _ _ (Nat.le_succ _) k, fun k => le_refl _, fun k => le_refl _,
          Nat.le_succ _, le_refl _, le_refl _⟩,
        rfl, rfl, rfl, rfl, rfl, rfl, rfl⟩

section
attribute [local irreducible] resolveOperator resolveCountry getFlightNoAsIcaoCode

/-- Frame of updateOperator: everything except the operator tallies and the
sighting's operator field is preserved, and the operator tallies never
decrease. -/
lemma updateOperator_frame (ext : ExtFns) (db : Dashboard) (s : AircraftSighting)
    (ac : AircraftRecord) (f : Bool) :
    ((updateOperator ext db s ac f).db.isWarmup = db.isWarmup) ∧
    ((updateOperator ext db s ac f).db.Fastest = db.Fastest) ∧
    ((updateOperator ext db s ac f).db.Highest = db.Highest) ∧
    ((updateOperator ext db s ac f).db.RareSightings = db.RareSightings) ∧
    ((updateOperator ext db s ac f).db.aircraftSightings = db.aircraftSightings) ∧
    TablesEq (updateOperator ext db s ac f).db db ∧
    TalliesLe db (updateOperator ext db s ac f).db ∧
    ((updateOperator ext db s ac f).db.SeenTypeCount = db.SeenTypeCount) ∧
    ((updateOperator ext db s ac f).db.SeenCountryCount = db.SeenCountryCount) ∧
    ((updateOperator ext db s ac f).db.totalTypeCount = db.totalTypeCount) ∧
    ((updateOperator ext db s ac f).db.totalCountryCount = db.totalCountryCount) ∧
    ((updateOperator ext db s ac f).s.lastFlightNo = s.lastFlightNo) ∧
    ((updateOperator ext db s ac f).s.typeDesc = s.typeDesc) ∧
    ((updateOperator ext db s ac f).s.country = s.country) ∧
    ((updateOperator ext db s ac f).ac = ac) := by
  simp only [updateOperator, TablesEq, TalliesLe]
  split_ifs <;>
    first
    | exact ⟨rfl, rfl, rfl, rfl, rfl, ⟨rfl, rfl, rfl, rfl, rfl⟩,
        ⟨fun k => le_refl _, fun k => le_refl _, fun k => le_refl _, le_refl _, le_refl _, le_refl _⟩,
        rfl, rfl, rfl, rfl, rfl, rfl, rfl, rfl⟩
    | exact ⟨rfl, rfl, rfl, rfl, rfl, ⟨rfl, rfl, rfl, rfl, rfl⟩,
        ⟨fun k => le_refl _, fun k => le_update _ _ _ (Nat.le_succ _) k, fun k => le_refl _,
          le_refl _, Nat.le_succ _, le_refl _⟩,
        rfl, rfl, rfl, rfl, rfl, rfl, rfl, rfl⟩

/-- Frame of updateCountry: everything except the country tallies and the
sighting's country field is preserved, and the country tallies never
decrease. -/
lemma updateCountry_frame (ext : ExtFns) (db : Dashboard) (s : AircraftSighting)
    (ac : AircraftRecord) (f : Bool) :
    ((updateCountry ext db s ac f).db.isWarmup = db.isWarmup) ∧
    ((updateCountry ext db s ac f).db.Fastest = db.Fastest) ∧
    ((updateCountry ext db s ac f).db.Highest = db.Highest) ∧
    ((updateCountry ext db s ac f).db.RareSightings = db.RareSightings) ∧
    ((updateCountry ext db s ac f).db.aircraftSightings = db.aircraftSightings) ∧
    TablesEq (updateCountry ext db s ac f).db db ∧
    TalliesLe db (updateCountry ext db s ac f).db ∧
    ((updateCountry ext db s ac f).db.SeenTypeCount = db.SeenTypeCount) ∧
    ((updateCountry ext db s ac f).db.SeenOperatorCount = db.SeenOperatorCount) ∧
    ((updateCountry ext db s ac f).db.totalTypeCount = db.totalTypeCount) ∧
    ((updateCountry ext db s ac f).db.totalOperatorCount = db.totalOperatorCount) ∧
    ((updateCountry ext db s ac f).s.lastFlightNo = s.lastFlightNo) ∧
    ((updateCountry ext db s ac f).s.typeDesc = s.typeDesc) ∧
    ((updateCountry ext db s ac f).s.operator = s.operator) ∧
    ((updateCountry ext db s ac f).ac = ac) := by
  simp only [updateCountry, TablesEq, TalliesLe]
  split_ifs <;>
    first
    | exact ⟨rfl, rfl, rfl, rfl, rfl, ⟨rfl, rfl, rfl, rfl, rfl⟩,
        ⟨fun k => le_refl _, fun k => le_refl _, fun k => le_refl _, le_refl _, le_refl _, le_refl _⟩,
        rfl, rfl, rfl, rfl, rfl, rfl, rfl, rfl⟩
    | exact ⟨rfl, rfl, rfl, rfl, rfl, ⟨rfl, rfl, rfl, rfl, rfl⟩,
        ⟨fun k => le_refl _, fun k => le_refl _, fun k => le_update _ _ _ (Nat.le_succ _) k,
          le_refl _, le_refl _, Nat.le_succ _⟩,
        rfl, rfl, rfl, rfl, rfl, rfl, rfl, rfl⟩

/-- Frame of updateHighest: only the highest slot can change. -/
lemma updateHighest_frame (db : Dashboard) (ac : AircraftRecord) :
    ((updateHighest db ac).isWarmup = db.isWarmup) ∧
    ((updateHighest db ac).Fastest = db.Fastest) ∧
    ((updateHighest db ac).RareSightings = db.RareSightings) ∧
    ((updateHighest db ac).aircraftSightings = db.aircraftSightings) ∧
    TablesEq (updateHighest db ac) db ∧
    TalliesEq (updateHighest db ac) db := by
  simp only [updateHighest, TablesEq, TalliesEq]
  rcases altBaroAsFloat ac.AltBaro with _ | a
  · exact ⟨rfl, rfl, rfl, rfl, ⟨rfl, rfl, rfl, rfl, rfl⟩, ⟨rfl, rfl, rfl, rfl, rfl, rfl⟩⟩
  · rcases db.Highest with _ | h
    · exact ⟨rfl, rfl, rfl, rfl, ⟨rfl, rfl, rfl, rfl, rfl⟩, ⟨rfl, rfl, rfl, rfl, rfl, rfl⟩⟩
    · dsimp only
      split_ifs <;>
        exact ⟨rfl, rfl, rfl, rfl, ⟨rfl, rfl, rfl, rfl, rfl⟩, ⟨rfl, rfl, rfl, rfl, rfl, rfl⟩⟩

/-- Frame of updateFastest: only the fastest slot can change. -/
lemma updateFastest_frame (db : Dashboard) (ac : AircraftRecord) :
    ((updateFastest db ac).isWarmup = db.isWarmup) ∧
    ((updateFastest db ac).Highest = db.Highest) ∧
    ((updateFastest db ac).RareSightings = db.RareSightings) ∧
    ((updateFastest db ac).aircraftSightings = db.aircraftSightings) ∧
    TablesEq (updateFastest db ac) db ∧
    TalliesEq (updateFastest db ac) db := by
  simp only [updateFastest, TablesEq, TalliesEq]
  rcases db.Fastest with _ | f
  · exact ⟨rfl, rfl, rfl, rfl, ⟨rfl, rfl, rfl, rfl, rfl⟩, ⟨rfl, rfl, rfl, rfl, rfl, rfl⟩⟩
  · dsimp only
    split_ifs <;>
      exact ⟨rfl, rfl, rfl, rfl, ⟨rfl, rfl, rfl, rfl, rfl⟩, ⟨rfl, rfl, rfl, rfl, rfl, rfl⟩⟩

/-- Transitivity of reference-table equality. -/
lemma tablesEq_trans {d e f : Dashboard} (h1 : TablesEq d e) (h2 : TablesEq e f) :
    TablesEq d f :=
  ⟨h1.1.trans h2.1, h1.2.1.trans h2.2.1, h1.2.2.1.trans h2.2.2.1,
   h1.2.2.2.1.trans h2.2.2.2.1, h1.2.2.2.2.trans h2.2.2.2.2⟩

/-- Frame of the classifier cascade. -/
lemma processClassifiers_frame (ext : ExtFns) (db : Dashboard) (s : AircraftSighting)
    (ac : AircraftRecord) (f : Bool) :
    ((processClassifiers ext db s ac f).db.isWarmup = db.isWarmup) ∧
    ((processClassifiers ext db s ac f).db.Fastest = db.Fastest) ∧
    ((processClassifiers ext db s ac f).db.Highest = db.Highest) ∧
    ((processClassifiers ext db s ac f).db.RareSightings = db.RareSightings) ∧
    ((processClassifiers ext db s ac f).db.aircraftSightings = db.aircraftSightings) ∧
    TablesEq (processClassifiers ext db s ac f).db db ∧
    TalliesLe db (processClassifiers ext db s ac f).db ∧
    ((processClassifiers ext db s ac f).s.lastFlightNo = s.lastFlightNo) := by
  obtain ⟨a1, a2, a3, a4, a5, a6, a7, -, -, -, -, a12, -, -⟩ := updateType_frame ext db s ac f
  obtain ⟨b1, b2, b3, b4, b5, b6, b7, -, -, -, -, b12, -, -, -⟩ :=
    updateOperator_frame ext (updateType ext db s ac f).db (updateType ext db s ac f).s
      (updateType ext db s ac f).ac f
  obtain ⟨c1, c2, c3, c4, c5, c6, c7, -, -, -, -, c12, -, -, -⟩ :=
    updateCountry_frame ext
      (updateOperator ext (updateType ext db s ac f).db (updateType ext db s ac f).s
        (updateType ext db s ac f).ac f).db
      (updateOperator ext (updateType ext db s ac f).db (updateType ext db s ac f).s
        (updateType ext db s ac f).ac f).s
      (updateOperator ext (updateType ext db s ac f).db (updateType ext db s ac f).s
        (updateType ext db s ac f).ac f).ac f
  simp only [processClassifiers]
  exact ⟨c1.trans (b1.trans a1), c2.trans (b2.trans a2), c3.trans (b3.trans a3),
    c4.trans (b4.trans a4), c5.trans (b5.trans a5),
    tablesEq_trans c6 (tablesEq_trans b6 a6),
    talliesLe_trans a7 (talliesLe_trans b7 c7),
    c12.trans (b12.trans a12)⟩

attribute [local irreducible] processClassifiers resolveSighting

/-- Inversion of the numeric-altitude accessor. -/
lemma altBaroAsFloat_eq_some {ab : AltBaro} {q : ℚ} (h : altBaroAsFloat ab = some q) :
    ab = AltBaro.flt q := by
  cases ab <;> simp [altBaroAsFloat] at h <;> simp [h]

/-- updateHighest maintains the numeric-altitude invariant of the highest
slot: a new occupant has just passed the float64 type assertion. -/
lemma updateHighest_numeric (db : Dashboard) (ac : AircraftRecord)
    (h : HighestNumeric db) : HighestNumeric (updateHighest db ac) := by
  intro a ha
  simp only [updateHighest] at ha
  split at ha
  · exact h a ha
  · rename_i q hq
    split at ha
    · simp only [Option.some.injEq] at ha
      exact ⟨q, ha ▸ altBaroAsFloat_eq_some hq⟩
    · split at ha
      · exact h a ha
      · simp only [Option.some.injEq] at ha
        exact ⟨q, ha ▸ altBaroAsFloat_eq_some hq⟩

/-- Dashboards with the same highest slot agree on the numeric invariant. -/
lemma highestNumeric_congr {d e : Dashboard} (h : d.Highest = e.Highest)
    (he : HighestNumeric e) : HighestNumeric d := fun a ha => he a (h ▸ ha)

/-- Frame of the loop-body tail. -/
lemma processTail_frame (ext : ExtFns) (db : Dashboard) (s : AircraftSighting)
    (ac : AircraftRecord) (hex : String) (f : Bool) :
    TablesEq (processTail ext db s ac hex f).1 db ∧
    ((processTail ext db s ac hex f).1.isWarmup = db.isWarmup) ∧
    TalliesLe db (processTail ext db s ac hex f).1 ∧
    ((processTail ext db s ac hex f).1.Highest = (updateHighest db ac).Highest) ∧
    ((processTail ext db s ac hex f).1.Fastest =
      (updateFastest (updateHighest db ac) ac).Fastest) := by
  obtain ⟨h1, h2, h3, h4, h5, h6⟩ := updateHighest_frame db ac
  obtain ⟨f1, f2, f3, f4, f5, f6⟩ := updateFastest_frame (updateHighest db ac) ac
  obtain ⟨p1, p2, p3, p4, p5, p6, p7, p8⟩ :=
    processClassifiers_frame ext (updateFastest (updateHighest db ac) ac) s ac f
  have hle : TalliesLe db (processClassifiers ext (updateFastest (updateHighest db ac) ac) s ac f).db :=
    talliesLe_trans (talliesLe_of_eq h6) (talliesLe_trans (talliesLe_of_eq f6) p7)
  have htb : TablesEq (processClassifiers ext (updateFastest (updateHighest db ac) ac) s ac f).db db :=
    tablesEq_trans p6 (tablesEq_trans f5 h5)
  simp only [processTail]
  split_ifs <;>
    exact ⟨htb, p1.trans (f1.trans h1), hle, p3.trans f2, p2⟩

/-- Frame of processRecord: tables and the warm-up flag are preserved, the
tallies never decrease, and the numeric-altitude invariant of the highest
slot is maintained. -/
lemma processRecord_frame (ext : ExtFns) (now : Rat) (db : Dashboard) (ac0 : AircraftRecord) :
    TablesEq (processRecord ext now db ac0).1 db ∧
    ((processRecord ext now db ac0).1.isWarmup = db.isWarmup) ∧
    TalliesLe db (processRecord ext now db ac0).1 ∧
    (HighestNumeric db → HighestNumeric (processRecord ext now db ac0).1) := by
  simp only [processRecord]
  refine ⟨(processTail_frame ext db _ _ _ _).1, (processTail_frame ext db _ _ _ _).2.1,
    (processTail_frame ext db _ _ _ _).2.2.1, fun h => ?_⟩
  exact highestNumeric_congr (processTail_frame ext db _ _ _ _).2.2.2.1
    (updateHighest_numeric db _ h)

attribute [local irreducible] processRecord

/-- Frame of processRecords over a whole batch. -/
lemma processRecords_frame (ext : ExtFns) (now : ℚ) :
    ∀ (batch : List AircraftRecord) (db : Dashboard),
      TablesEq (processRecords ext now db batch).1 db ∧
      ((processRecords ext now db batch).1.isWarmup = db.isWarmup) ∧
      TalliesLe db (processRecords ext now db batch).1 ∧
      (HighestNumeric db → HighestNumeric (processRecords ext now db batch).1)
  | [], db =>
    ⟨⟨rfl, rfl, rfl, rfl, rfl⟩, rfl, talliesLe_refl db, fun h => h⟩
  | ac :: rest, db => by
    obtain ⟨t1, t2, t3, t4⟩ := processRecord_frame ext now db ac
    obtain ⟨r1, r2, r3, r4⟩ := processRecords_frame ext now rest (processRecord ext now db ac).1
    exact ⟨tablesEq_trans r1 t1, r2.trans t2, talliesLe_trans t3 r3, fun h => r4 (t4 h)⟩

/-- Frame of a full processCivAircraftRecords cycle. -/
lemma processCiv_frame (ext : ExtFns) (now : ℚ) (db : Dashboard) :
    TablesEq (processCivAircraftRecords ext now db) db ∧
    ((processCivAircraftRecords ext now db).isWarmup = db.isWarmup) ∧
    TalliesLe db (processCivAircraftRecords ext now db) ∧
    (HighestNumeric db → HighestNumeric (processCivAircraftRecords ext now db)) := by
  simp only [processCivAircraftRecords]
  obtain ⟨r1, r2, r3, r4⟩ := processRecords_frame ext now (sortByFlight db.CurrentAircraft)
    { db with CurrentAircraft := sortByFlight db.CurrentAircraft, RareSightings := [] }
  exact ⟨r1, r2, r3, fun h => r4 h⟩

/-- Frame of ingest. -/
lemma ingest_frame (ext : ExtFns) (now : ℚ) (db : Dashboard) (batch : List AircraftRecord) :
    TablesEq (ingest ext now db batch) db ∧
    ((ingest ext now db batch).isWarmup = db.isWarmup) ∧
    TalliesLe db (ingest ext now db batch) ∧
    (HighestNumeric db → HighestNumeric (ingest ext now db batch)) := by
  simp only [ingest]
  split_ifs
  · exact ⟨⟨rfl, rfl, rfl, rfl, rfl⟩, rfl, talliesLe_refl db, fun h => h⟩
  · obtain ⟨r1, r2, r3, r4⟩ := processCiv_frame ext now { db with CurrentAircraft := batch }
    exact ⟨r1, r2, r3, fun h => r4 h⟩

theorem monotonic_tallies (ext : ExtFns) (now : ℚ) (db : Dashboard)
    (batch : List AircraftRecord) :
    (∀ k, db.SeenTypeCount k ≤ (ingest ext now db batch).SeenTypeCount k) ∧
    (∀ k, db.SeenOperatorCount k ≤ (ingest ext now db batch).SeenOperatorCount k) ∧
    (∀ k, db.SeenCountryCount k ≤ (ingest ext now db batch).SeenCountryCount k) ∧
    db.totalTypeCount ≤ (ingest ext now db batch).totalTypeCount ∧
    db.totalOperatorCount ≤ (ingest ext now db batch).totalOperatorCount ∧
    db.totalCountryCount ≤ (ingest ext now db batch).totalCountryCount :=
  (ingest_frame ext now db batch).2.2.1

theorem highest_always_numeric :
    (∀ (lat lon : ℚ) (tA : String → Option IcaoAircraft) (tB : String → Option IcaoOperator)
      (tC : List (String × String)) (tD : List (HexRange × String))
      (tE : String → Option String),
        HighestNumeric (newDashboard lat lon tA tB tC tD tE)) ∧
    (∀ (ext : ExtFns) (now : ℚ) (db : Dashboard) (batch : List AircraftRecord),
        HighestNumeric db → HighestNumeric (ingest ext now db batch)) :=
  ⟨fun _ _ _ _ _ _ _ a ha => by simp [newDashboard] at ha,
   fun ext now db batch h => (ingest_frame ext now db batch).2.2.2 h⟩

theorem highest_always_numeric_witness :
    HighestNumeric (ingest extZero 0 emptyTablesDashboard [acAlt100A]) :=
  highest_always_numeric.2 extZero 0 emptyTablesDashboard [acAlt100A]
    (highest_always_numeric.1 0 0 (fun _ => none) (fun _ => none) [] [] (fun _ => none))

end

section
attribute [local irreducible] resolveOperator resolveCountry getFlightNoAsIcaoCode

/-- The warm-up flag of two dashboards agreeing elsewhere plays no role in
updateType. -/
lemma updateType_warmup (ext : ExtFns) (s1 s2 : AircraftSighting) (ac1 ac2 : AircraftRecord)
    (f : Bool) (d e : Dashboard) (h : EqExceptWarmup d e) (hs : s1 = s2) (hac : ac1 = ac2) :
    EqExceptWarmup (updateType ext d s1 ac1 f).db (updateType ext e s2 ac2 f).db ∧
    (updateType ext d s1 ac1 f).s = (updateType ext e s2 ac2 f).s ∧
    (updateType ext d s1 ac1 f).ac = (updateType ext e s2 ac2 f).ac ∧
    (updateType ext d s1 ac1 f).flag = (updateType ext e s2 ac2 f).flag := by
  subst hs
  subst hac
  obtain ⟨h1, h2, h3, h4, h5, h6, h7, h8, h9, h10, h11, h12, h13, h14, h15, h16, h17, h18⟩ := h
  cases d
  cases e
  dsimp only at h1 h2 h3 h4 h5 h6 h7 h8 h9 h10 h11 h12 h13 h14 h15 h16 h17 h18
  subst_vars
  simp only [updateType, EqExceptWarmup]
  split_ifs <;>
    exact ⟨⟨rfl, rfl, rfl, rfl, rfl, rfl, rfl, rfl, rfl, rfl, rfl, rfl, rfl, rfl, rfl, rfl, rfl,
      rfl⟩, rfl, rfl, rfl⟩

/-- The warm-up flag plays no role in updateOperator. -/
lemma updateOperator_warmup (ext : ExtFns) (s1 s2 : AircraftSighting) (ac1 ac2 : AircraftRecord)
    (f : Bool) (d e : Dashboard) (h : EqExceptWarmup d e) (hs : s1 = s2) (hac : ac1 = ac2) :
    EqExceptWarmup (updateOperator ext d s1 ac1 f).db (updateOperator ext e s2 ac2 f).db ∧
    (updateOperator ext d s1 ac1 f).s = (updateOperator ext e s2 ac2 f).s ∧
    (updateOperator ext d s1 ac1 f).ac = (updateOperator ext e s2 ac2 f).ac ∧
    (updateOperator ext d s1 ac1 f).flag = (updateOperator ext e s2 ac2 f).flag := by
  subst hs
  subst hac
  obtain ⟨h1, h2, h3, h4, h5, h6, h7, h8, h9, h10, h11, h12, h13, h14, h15, h16, h17, h18⟩ := h
  cases d
  cases e
  dsimp only at h1 h2 h3 h4 h5 h6 h7 h8 h9 h10 h11 h12 h13 h14 h15 h16 h17 h18
  subst_vars
  simp only [updateOperator, EqExceptWarmup]
  split_ifs <;>
    exact ⟨⟨rfl, rfl, rfl, rfl, rfl, rfl, rfl, rfl, rfl, rfl, rfl, rfl, rfl, rfl, rfl, rfl, rfl,
      rfl⟩, rfl, rfl, rfl⟩

/-- The warm-up flag plays no role in updateCountry. -/
lemma updateCountry_warmup (ext : ExtFns) (s1 s2 : AircraftSighting) (ac1 ac2 : AircraftRecord)
    (f : Bool) (d e : Dashboard) (h : EqExceptWarmup d e) (hs : s1 = s2) (hac : ac1 = ac2) :
    EqExceptWarmup (updateCountry ext d s1 ac1 f).db (updateCountry ext e s2 ac2 f).db ∧
    (updateCountry ext d s1 ac1 f).s = (updateCountry ext e s2 ac2 f).s ∧
    (updateCountry ext d s1 ac1 f).ac = (updateCountry ext e s2 ac2 f).ac ∧
    (updateCountry ext d s1 ac1 f).flag = (updateCountry ext e s2 ac2 f).flag := by
  subst hs
  subst hac
  obtain ⟨h1, h2, h3, h4, h5, h6, h7, h8, h9, h10, h11, h12, h13, h14, h15, h16, h17, h18⟩ := h
  cases d
  cases e
  dsimp only at h1 h2 h3 h4 h5 h6 h7 h8 h9 h10 h11 h12 h13 h14 h15 h16 h17 h18
  subst_vars
  simp only [updateCountry, EqExceptWarmup]
  split_ifs <;>
    exact ⟨⟨rfl, rfl, rfl, rfl, rfl, rfl, rfl, rfl, rfl, rfl, rfl, rfl, rfl, rfl, rfl, rfl, rfl,
      rfl⟩, rfl, rfl, rfl⟩

/-- The warm-up flag plays no role in updateHighest. -/
lemma updateHighest_warmup (ac1 ac2 : AircraftRecord) (d e : Dashboard)
    (h : EqExceptWarmup d e) (hac : ac1 = ac2) :
    EqExceptWarmup (updateHighest d ac1) (updateHighest e ac2) := by
  subst hac
  obtain ⟨h1, h2, h3, h4, h5, h6, h7, h8, h9, h10, h11, h12, h13, h14, h15, h16, h17, h18⟩ := h
  obtain ⟨w1, lat1, lon1, fa1, hi1, cur1, rare1, sig1, tt1, tp1, tc1, st1, so1, sc1, ia1, il1, rp1, hr1, mil1⟩ := d
  obtain ⟨w2, lat2, lon2, fa2, hi2, cur2, rare2, sig2, tt2, tp2, tc2, st2, so2, sc2, ia2, il2, rp2, hr2, mil2⟩ := e
  dsimp only at h1 h2 h3 h4 h5 h6 h7 h8 h9 h10 h11 h12 h13 h14 h15 h16 h17 h18
  subst_vars
  simp only [updateHighest, EqExceptWarmup]
  rcases altBaroAsFloat ac1.AltBaro with _ | q <;> dsimp only
  · exact ⟨rfl, rfl, rfl, rfl, rfl, rfl, rfl, rfl, rfl, rfl, rfl, rfl, rfl, rfl, rfl, rfl, rfl, rfl⟩
  · rcases hi2 with _ | b <;> dsimp only
    · exact ⟨rfl, rfl, rfl, rfl, rfl, rfl, rfl, rfl, rfl, rfl, rfl, rfl, rfl, rfl, rfl, rfl, rfl,
        rfl⟩
    · split_ifs <;>
        exact ⟨rfl, rfl, rfl, rfl, rfl, rfl, rfl, rfl, rfl, rfl, rfl, rfl, rfl, rfl, rfl, rfl, rfl,
          rfl⟩

/-- The warm-up flag plays no role in updateFastest. -/
lemma updateFastest_warmup (ac1 ac2 : AircraftRecord) (d e : Dashboard)
    (h : EqExceptWarmup d e) (hac : ac1 = ac2) :
    EqExceptWarmup (updateFastest d ac1) (updateFastest e ac2) := by
  subst hac
  obtain ⟨h1, h2, h3, h4, h5, h6, h7, h8, h9, h10, h11, h12, h13, h14, h15, h16, h17, h18⟩ := h
  obtain ⟨w1, lat1, lon1, fa1, hi1, cur1, rare1, sig1, tt1, tp1, tc1, st1, so1, sc1, ia1, il1, rp1, hr1, mil1⟩ := d
  obtain ⟨w2, lat2, lon2, fa2, hi2, cur2, rare2, sig2, tt2, tp2, tc2, st2, so2, sc2, ia2, il2, rp2, hr2, mil2⟩ := e
  dsimp only at h1 h2 h3 h4 h5 h6 h7 h8 h9 h10 h11 h12 h13 h14 h15 h16 h17 h18
  subst_vars
  simp only [updateFastest, EqExceptWarmup]
  rcases fa2 with _ | b <;> dsimp only
  · exact ⟨rfl, rfl, rfl, rfl, rfl, rfl, rfl, rfl, rfl, rfl, rfl, rfl, rfl, rfl, rfl, rfl, rfl, rfl⟩
  · split_ifs <;>
      exact ⟨rfl, rfl, rfl, rfl, rfl, rfl, rfl, rfl, rfl, rfl, rfl, rfl, rfl, rfl, rfl, rfl, rfl,
        rfl⟩

/-- The warm-up flag plays no role in the classifier cascade. -/
lemma processClassifiers_warmup (ext : ExtFns) (s1 s2 : AircraftSighting)
    (ac1 ac2 : AircraftRecord) (f : Bool) (d e : Dashboard)
    (h : EqExceptWarmup d e) (hs : s1 = s2) (hac : ac1 = ac2) :
    EqExceptWarmup (processClassifiers ext d s1 ac1 f).db (processClassifiers ext e s2 ac2 f).db ∧
    (processClassifiers ext d s1 ac1 f).s = (processClassifiers ext e s2 ac2 f).s ∧
    (processClassifiers ext d s1 ac1 f).ac = (processClassifiers ext e s2 ac2 f).ac ∧
    (processClassifiers ext d s1 ac1 f).flag = (processClassifiers ext e s2 ac2 f).flag := by
  obtain ⟨hdb1, hs1, hac1, hf1⟩ := updateType_warmup ext s1 s2 ac1 ac2 f d e h hs hac
  obtain ⟨hdb2, hs2, hac2, hf2⟩ :=
    updateOperator_warmup ext (updateType ext d s1 ac1 f).s (updateType ext e s2 ac2 f).s
      (updateType ext d s1 ac1 f).ac (updateType ext e s2 ac2 f).ac f
      (updateType ext d s1 ac1 f).db (updateType ext e s2 ac2 f).db hdb1 hs1 hac1
  obtain ⟨hdb3, hs3, hac3, hf3⟩ :=
    updateCountry_warmup ext _ _ _ _ f _ _ hdb2 hs2 hac2
  simp only [processClassifiers]
  exact ⟨hdb3, hs3, hac3, by rw [hf1, hf2, hf3]⟩

/-- The warm-up flag plays no role in sighting resolution. -/
lemma resolveSighting_warmup (ext : ExtFns) (now : ℚ) (ac0 : AircraftRecord)
    (d e : Dashboard) (h : EqExceptWarmup d e) :
    resolveSighting ext now d ac0 = resolveSighting ext now e ac0 := by
  obtain ⟨h1, h2, h3, h4, h5, h6, h7, h8, h9, h10, h11, h12, h13, h14, h15, h16, h17, h18⟩ := h
  obtain ⟨w1, lat1, lon1, fa1, hi1, cur1, rare1, sig1, tt1, tp1, tc1, st1, so1, sc1, ia1, il1, rp1, hr1, mil1⟩ := d
  obtain ⟨w2, lat2, lon2, fa2, hi2, cur2, rare2, sig2, tt2, tp2, tc2, st2, so2, sc2, ia2, il2, rp2, hr2, mil2⟩ := e
  dsimp only at h1 h2 h3 h4 h5 h6 h7 h8 h9 h10 h11 h12 h13 h14 h15 h16 h17 h18
  subst_vars
  rfl

attribute [local irreducible] updateHighest updateFastest processClassifiers resolveSighting

/-- The warm-up flag plays no role in the loop-body tail. -/
lemma processTail_warmup (ext : ExtFns) (s1 s2 : AircraftSighting) (ac1 ac2 : AircraftRecord)
    (hex : String) (f : Bool) (d e : Dashboard)
    (h : EqExceptWarmup d e) (hs : s1 = s2) (hac : ac1 = ac2) :
    EqExceptWarmup (processTail ext d s1 ac1 hex f).1 (processTail ext e s2 ac2 hex f).1 ∧
    (processTail ext d s1 ac1 hex f).2 = (processTail ext e s2 ac2 hex f).2 := by
  subst hs
  subst hac
  have hH := updateHighest_warmup ac1 ac1 d e h rfl
  have hF := updateFastest_warmup ac1 ac1 (updateHighest d ac1) (updateHighest e ac1) hH rfl
  obtain ⟨cdb, cs, cac, cflag⟩ :=
    processClassifiers_warmup ext s1 s1 ac1 ac1 f (updateFastest (updateHighest d ac1) ac1)
      (updateFastest (updateHighest e ac1) ac1) hF rfl rfl
  simp only [processTail, EqExceptWarmup]
  rw [cflag, cs, cac]
  obtain ⟨c1, c2, c3, c4, c5, c6, c7, c8, c9, c10, c11, c12, c13, c14, c15, c16, c17, c18⟩ := cdb
  split_ifs
  · refine ⟨⟨c1, c2, c3, c4, c5, ?_, ?_, c8, c9, c10, c11, c12, c13, c14, c15, c16, c17, c18⟩, rfl⟩
    · dsimp only
      rw [c6]
    · dsimp only
      rw [c7]
  · refine ⟨⟨c1, c2, c3, c4, c5, c6, ?_, c8, c9, c10, c11, c12, c13, c14, c15, c16, c17, c18⟩, rfl⟩
    rw [c7]

attribute [local irreducible] processTail

/-- The warm-up flag plays no role in the loop body. -/
lemma processRecord_warmup (ext : ExtFns) (now : ℚ) (ac0 : AircraftRecord)
    (d e : Dashboard) (h : EqExceptWarmup d e) :
    EqExceptWarmup (processRecord ext now d ac0).1 (processRecord ext now e ac0).1 ∧
    (processRecord ext now d ac0).2 = (processRecord ext now e ac0).2 := by
  have hres := resolveSighting_warmup ext now ac0 d e h
  have hLat : d.Lat = e.Lat := h.1
  have hLon : d.Lon = e.Lon := h.2.1
  simp only [processRecord]
  rw [hres, hLat, hLon]
  exact processTail_warmup ext _ _ _ _ ac0.Hex (resolveSighting ext now e ac0).1 d e h rfl rfl

attribute [local irreducible] processRecord

/-- The warm-up flag plays no role in processing a batch of records. -/
lemma processRecords_warmup (ext : ExtFns) (now : ℚ) (l : List AircraftRecord) :
    ∀ d e : Dashboard, EqExceptWarmup d e →
    EqExceptWarmup (processRecords ext now d l).1 (processRecords ext now e l).1 ∧
    (processRecords ext now d l).2 = (processRecords ext now e l).2 := by
  induction l with
  | nil => intro d e h; exact ⟨h, rfl⟩
  | cons a rest ih =>
    intro d e h
    obtain ⟨h1, h2⟩ := processRecord_warmup ext now a d e h
    obtain ⟨g1, g2⟩ := ih (processRecord ext now d a).1 (processRecord ext now e a).1 h1
    refine ⟨g1, ?_⟩
    show (processRecord ext now d a).2 :: (processRecords ext now (processRecord ext now d a).1 rest).2
      = (processRecord ext now e a).2 :: (processRecords ext now (processRecord ext now e a).1 rest).2
    rw [h2, g2]

/-- The warm-up flag plays no role in a civilian processing cycle. -/
lemma processCiv_warmup (ext : ExtFns) (now : ℚ) (d e : Dashboard)
    (h : EqExceptWarmup d e) :
    EqExceptWarmup (processCivAircraftRecords ext now d) (processCivAircraftRecords ext now e) := by
  have hcur : d.CurrentAircraft = e.CurrentAircraft := h.2.2.2.2.1
  have hbase : EqExceptWarmup
      { d with CurrentAircraft := sortByFlight e.CurrentAircraft, RareSightings := [] }
      { e with CurrentAircraft := sortByFlight e.CurrentAircraft, RareSightings := [] } := by
    obtain ⟨h1, h2, h3, h4, h5, h6, h7, h8, h9, h10, h11, h12, h13, h14, h15, h16, h17, h18⟩ := h
    exact ⟨h1, h2, h3, h4, rfl, rfl, h7, h8, h9, h10, h11, h12, h13, h14, h15, h16, h17, h18⟩
  obtain ⟨g, glist⟩ := processRecords_warmup ext now (sortByFlight e.CurrentAircraft) _ _ hbase
  simp only [processCivAircraftRecords]
  rw [hcur]
  obtain ⟨g1, g2, g3, g4, g5, g6, g7, g8, g9, g10, g11, g12, g13, g14, g15, g16, g17, g18⟩ := g
  exact ⟨g1, g2, g3, g4, glist, g6, g7, g8, g9, g10, g11, g12, g13, g14, g15, g16, g17, g18⟩

/-- The warm-up flag plays no role in a whole ingest call. -/
lemma ingest_warmup (ext : ExtFns) (now : ℚ) (batch : List AircraftRecord)
    (d e : Dashboard) (h : EqExceptWarmup d e) :
    EqExceptWarmup (ingest ext now d batch) (ingest ext now e batch) := by
  simp only [ingest]
  split_ifs
  · exact h
  · apply processCiv_warmup
    obtain ⟨h1, h2, h3, h4, h5, h6, h7, h8, h9, h10, h11, h12, h13, h14, h15, h16, h17, h18⟩ := h
    exact ⟨h1, h2, h3, h4, rfl, h6, h7, h8, h9, h10, h11, h12, h13, h14, h15, h16, h17, h18⟩

/-- The warm-up flag plays no role in any run of ingest cycles. -/
lemma runSequence_warmup (ext : ExtFns) (seq : List (ℚ × List AircraftRecord)) :
    ∀ d e : Dashboard, EqExceptWarmup d e →
    EqExceptWarmup (runSequence ext d seq) (runSequence ext e seq) := by
  induction seq with
  | nil => intro d e h; exact h
  | cons p rest ih =>
    obtain ⟨now, batch⟩ := p
    intro d e h
    exact ih _ _ (ingest_warmup ext now batch d e h)

/-- C9: two runs of the same ingest sequence that differ only in the warm-up
flag produce identical tally maps, running totals and extremes — the flag
never suppresses tallying (in this engine it gates nothing at all in the
processing path). -/
theorem warmup_tally_independence (ext : ExtFns) (seq : List (ℚ × List AircraftRecord))
    (db : Dashboard) (b1 b2 : Bool) :
    (runSequence ext { db with isWarmup := b1 } seq).SeenTypeCount
      = (runSequence ext { db with isWarmup := b2 } seq).SeenTypeCount ∧
    (runSequence ext { db with isWarmup := b1 } seq).SeenOperatorCount
      = (runSequence ext { db with isWarmup := b2 } seq).SeenOperatorCount ∧
    (runSequence ext { db with isWarmup := b1 } seq).SeenCountryCount
      = (runSequence ext { db with isWarmup := b2 } seq).SeenCountryCount ∧
    (runSequence ext { db with isWarmup := b1 } seq).totalTypeCount
      = (runSequence ext { db with isWarmup := b2 } seq).totalTypeCount ∧
    (runSequence ext { db with isWarmup := b1 } seq).totalOperatorCount
      = (runSequence ext { db with isWarmup := b2 } seq).totalOperatorCount ∧
    (runSequence ext { db with isWarmup := b1 } seq).totalCountryCount
      = (runSequence ext { db with isWarmup := b2 } seq).totalCountryCount ∧
    (runSequence ext { db with isWarmup := b1 } seq).Fastest
      = (runSequence ext { db with isWarmup := b2 } seq).Fastest ∧
    (runSequence ext { db with isWarmup := b1 } seq).Highest
      = (runSequence ext { db with isWarmup := b2 } seq).Highest ∧
    (runSequence ext { db with isWarmup := b1 } seq).RareSightings
      = (runSequence ext { db with isWarmup := b2 } seq).RareSightings := by
  have h := runSequence_warmup ext seq { db with isWarmup := b1 } { db with isWarmup := b2 }
    ⟨rfl, rfl, rfl, rfl, rfl, rfl, rfl, rfl, rfl, rfl, rfl, rfl, rfl, rfl, rfl, rfl, rfl, rfl⟩
  obtain ⟨h1, h2, h3, h4, h5, h6, h7, h8, h9, h10, h11, h12, h13, h14, h15, h16, h17, h18⟩ := h
  exact ⟨h11, h12, h13, h8, h9, h10, h3, h4, h6⟩

end

section

/-- The flight-number string depends only on the Flight field. -/
lemma getFlightNoAsStr_congr (ac1 ac2 : AircraftRecord) (h : ac1.Flight = ac2.Flight) :
    getFlightNoAsStr ac1 = getFlightNoAsStr ac2 := by
  simp only [getFlightNoAsStr, h]

/-- The ICAO flight code depends only on the Flight field. -/
lemma getFlightNoAsIcaoCode_congr (ac1 ac2 : AircraftRecord) (h : ac1.Flight = ac2.Flight) :
    getFlightNoAsIcaoCode ac1 = getFlightNoAsIcaoCode ac2 := by
  simp only [getFlightNoAsIcaoCode, h]

/-- The resolved make depends only on the IcaoType field. -/
lemma getMake_congr (tbl : String → Option IcaoAircraft) (ac1 ac2 : AircraftRecord)
    (h : ac1.IcaoType = ac2.IcaoType) :
    getMake tbl ac1 = getMake tbl ac2 := by
  simp only [getMake, h]

/-- Operator resolution depends only on the Flight and OwnOp fields. -/
lemma resolveOperator_congr (a : String → Option IcaoOperator) (m : String → Option String)
    (x : String) (ac1 ac2 : AircraftRecord)
    (hF : ac1.Flight = ac2.Flight) (hO : ac1.OwnOp = ac2.OwnOp) :
    resolveOperator a m ac1 x = resolveOperator a m ac2 x := by
  simp only [resolveOperator, getFlightNoAsIcaoCode_congr ac1 ac2 hF, hO]

/-- Country resolution depends only on the Flight, Hex and Registration fields. -/
lemma resolveCountry_congr (a : String → Option IcaoOperator)
    (hr : List (HexRange × String)) (rp : List (String × String)) (x : String)
    (ac1 ac2 : AircraftRecord)
    (hF : ac1.Flight = ac2.Flight) (hH : ac1.Hex = ac2.Hex) (hR : ac1.Registration = ac2.Registration) :
    resolveCountry a hr rp ac1 x = resolveCountry a hr rp ac2 x := by
  simp only [resolveCountry, getFlightNoAsIcaoCode_congr ac1 ac2 hF, hH, hR]

/-- Operator resolution either falls through to its seed value or ignores it. -/
lemma resolveOperator_indep (a : String → Option IcaoOperator) (m : String → Option String)
    (ac : AircraftRecord) (x : String) (hx : x ≠ operatorUnknown) :
    resolveOperator a m ac x = x ∨
    resolveOperator a m ac x = resolveOperator a m ac operatorUnknown := by
  by_cases hf : getFlightNoAsIcaoCode ac = flightUnknownCode
  · left
    simp only [resolveOperator, if_neg (not_not_intro hf), if_neg hx]
    rw [if_neg]
    simp only [not_and]
    intro hxu
    exact absurd hxu hx
  · cases ha : a (getFlightNoAsIcaoCode ac) with
    | none =>
      left
      simp only [resolveOperator, if_pos hf, ha, if_neg hx]
      rw [if_neg]
      simp only [not_and]
      intro hxu
      exact absurd hxu hx
    | some r =>
      right
      simp only [resolveOperator, if_pos hf, ha]

/-- Country resolution either falls through to its seed value or ignores it. -/
lemma resolveCountry_indep (a : String → Option IcaoOperator)
    (hr : List (HexRange × String)) (rp : List (String × String))
    (ac : AircraftRecord) (x : String) (hx : x ≠ countryUnknown) :
    resolveCountry a hr rp ac x = x ∨
    resolveCountry a hr rp ac x = resolveCountry a hr rp ac countryUnknown := by
  by_cases hf : getFlightNoAsIcaoCode ac = flightUnknownCode
  · left
    simp only [resolveCountry, if_neg (not_not_intro hf), if_neg hx]
  · cases ha : a (getFlightNoAsIcaoCode ac) with
    | none =>
      left
      simp only [resolveCountry, if_pos hf, ha, if_neg hx]
    | some r =>
      right
      simp only [resolveCountry, if_pos hf, ha]

/-- If operator resolution fails from some seed, it also fails from the
unknown sentinel seed. -/
lemma resolveOperator_unknown_absorb (a : String → Option IcaoOperator)
    (m : String → Option String) (ac : AircraftRecord) (x : String)
    (h : resolveOperator a m ac x = operatorUnknown) :
    resolveOperator a m ac operatorUnknown = operatorUnknown := by
  by_cases hx : x = operatorUnknown
  · rwa [hx] at h
  · rcases resolveOperator_indep a m ac x hx with heq | hind
    · exact absurd (heq.symm.trans h) hx
    · rwa [hind] at h

/-- If country resolution fails from some seed, it also fails from the
unknown sentinel seed. -/
lemma resolveCountry_unknown_absorb (a : String → Option IcaoOperator)
    (hr : List (HexRange × String)) (rp : List (String × String))
    (ac : AircraftRecord) (x : String)
    (h : resolveCountry a hr rp ac x = countryUnknown) :
    resolveCountry a hr rp ac countryUnknown = countryUnknown := by
  by_cases hx : x = countryUnknown
  · rwa [hx] at h
  · rcases resolveCountry_indep a hr rp ac x hx with heq | hind
    · exact absurd (heq.symm.trans h) hx
    · rwa [hind] at h

/-- The continuity step on an existing sighting whose stored flight number
already equals the known observed one: not a new flight, sighting unchanged. -/
lemma continuityStep_of_eq (s : AircraftSighting) (t : String)
    (hl : s.lastFlightNo = t) (hA : t ≠ flightUnknown) :
    continuityStep true s t = (false, s) := by
  have h1 : (t == flightUnknown) = false := beq_eq_false_iff_ne.mpr hA
  simp [continuityStep, hl, h1, bne_self_eq_false]

/-- The continuity step with a known observed flight number always stores
that flight number. -/
lemma continuityStep_lastFlight (ex : Bool) (s : AircraftSighting) (t : String)
    (hA : t ≠ flightUnknown) :
    (continuityStep ex s t).2.lastFlightNo = t := by
  have ht : (t != flightUnknown) = true := bne_iff_ne.mpr hA
  by_cases h : s.lastFlightNo = flightUnknown
  · have h1 : (s.lastFlightNo == flightUnknown) = true := beq_iff_eq.mpr h
    simp only [continuityStep, h1, ht, Bool.true_and, Bool.and_true, Bool.true_or, if_pos]
  · have h1 : (s.lastFlightNo == flightUnknown) = false := beq_eq_false_iff_ne.mpr h
    by_cases h2 : s.lastFlightNo = t
    · have h3 : (s.lastFlightNo != t) = false := by
        simp [bne, h2]
      simp only [continuityStep, h1, h3, ht, Bool.false_and, Bool.and_false, Bool.false_or,
        if_neg, Bool.not_false, Bool.true_and]
      simpa using h2
    · have h3 : (s.lastFlightNo != t) = true := bne_iff_ne.mpr h2
      have h4 : (s.lastFlightNo != flightUnknown) = true := bne_iff_ne.mpr h
      simp only [continuityStep, h1, h3, h4, ht, Bool.false_and, Bool.true_and, Bool.and_true,
        Bool.true_or, Bool.or_true, if_pos]

attribute [local irreducible] resolveOperator resolveCountry getFlightNoAsIcaoCode getMake

/-- updateType only rewrites the record's cached type. -/
lemma updateType_ac (ext : ExtFns) (db : Dashboard) (s : AircraftSighting)
    (ac : AircraftRecord) (f : Bool) :
    ∃ ct, (updateType ext db s ac f).ac = { ac with CachedType := ct } := by
  simp only [updateType]
  split_ifs <;> exact ⟨_, rfl⟩

/-- updateOperator returns the record unchanged. -/
lemma updateOperator_ac (ext : ExtFns) (db : Dashboard) (s : AircraftSighting)
    (ac : AircraftRecord) (f : Bool) :
    (updateOperator ext db s ac f).ac = ac := by
  simp only [updateOperator]
  split_ifs <;> rfl

/-- updateCountry returns the record unchanged. -/
lemma updateCountry_ac (ext : ExtFns) (db : Dashboard) (s : AircraftSighting)
    (ac : AircraftRecord) (f : Bool) :
    (updateCountry ext db s ac f).ac = ac := by
  simp only [updateCountry]
  split_ifs <;> rfl

/-- A cycle with no new flight and an already classified or unclassifiable
type leaves the dashboard untouched and raises no type-rarity flag. -/
lemma updateType_silent (ext : ExtFns) (db : Dashboard) (s : AircraftSighting)
    (ac : AircraftRecord)
    (hT : s.typeDesc ≠ typeUnknown ∨ getMake db.IcaoToAircraft ac = "") :
    (updateType ext db s ac false).db = db ∧ (updateType ext db s ac false).flag = 0 := by
  simp only [updateType]
  split_ifs with h1 h2 h3 h4 h5 h6 h7
  all_goals try exact ⟨rfl, rfl⟩
  all_goals exfalso
  all_goals rcases hT with hd | hm
  all_goals first
    | exact h2 ⟨hd, trivial⟩
    | exact h3 hm
    | exact h4 ⟨hd, trivial⟩
    | exact h5 hm
    | exact h5 ⟨hd, trivial⟩
    | exact h6 hm

/-- A cycle with no new flight and an already classified or unresolvable
operator leaves the dashboard untouched and raises no operator-rarity flag. -/
lemma updateOperator_silent (ext : ExtFns) (db : Dashboard) (s : AircraftSighting)
    (ac : AircraftRecord)
    (hO : s.operator ≠ operatorUnknown ∨ ac.Flight = "" ∨
      resolveOperator db.IcaoToAirline db.milCodeToOperator ac operatorUnknown = operatorUnknown) :
    (updateOperator ext db s ac false).db = db ∧ (updateOperator ext db s ac false).flag = 0 := by
  simp only [updateOperator]
  split_ifs with h1 h2 h3 h4
  all_goals try exact ⟨rfl, rfl⟩
  all_goals exfalso
  all_goals
    have hsu : s.operator = operatorUnknown := by
      by_contra hne
      exact h1 ⟨hne, trivial⟩
  all_goals rcases hO with hd | hfl | habs
  all_goals first
    | exact hd hsu
    | exact h2 hfl
    | exact h3 (by
        have hres : resolveOperator db.IcaoToAirline db.milCodeToOperator ac s.operator
            = operatorUnknown := by rw [hsu]; exact habs
        exact hres)

/-- A cycle with no new flight and an already classified or unresolvable
country leaves the dashboard untouched and raises no country-rarity flag. -/
lemma updateCountry_silent (ext : ExtFns) (db : Dashboard) (s : AircraftSighting)
    (ac : AircraftRecord)
    (hC : s.country ≠ countryUnknown ∨ ac.Flight = "" ∨
      resolveCountry db.IcaoToAirline db.hexRangeToCountry db.regPrefixToCountry ac
        countryUnknown = countryUnknown) :
    (updateCountry ext db s ac false).db = db ∧ (updateCountry ext db s ac false).flag = 0 := by
  simp only [updateCountry]
  split_ifs with h1 h2 h3 h4
  all_goals try exact ⟨rfl, rfl⟩
  all_goals exfalso
  all_goals
    have hsu : s.country = countryUnknown := by
      by_contra hne
      exact h1 ⟨hne, trivial⟩
  all_goals rcases hC with hd | hfl | habs
  all_goals first
    | exact hd hsu
    | exact h2 hfl
    | exact h3 (by
        have hres : resolveCountry db.IcaoToAirline db.hexRangeToCountry db.regPrefixToCountry
            ac s.country = countryUnknown := by rw [hsu]; exact habs
        exact hres)

/-- After updateType the sighting's type is classified unless the type is
unresolvable, provided the resolved make is not the literal sentinel. -/
lemma updateType_establish (ext : ExtFns) (db : Dashboard) (s : AircraftSighting)
    (ac : AircraftRecord) (f : Bool)
    (hB : getMake db.IcaoToAircraft ac ≠ typeUnknown) :
    (updateType ext db s ac f).s.typeDesc ≠ typeUnknown ∨
      getMake db.IcaoToAircraft ac = "" := by
  simp only [updateType]
  split_ifs with h1 h2 h3 h4 h5 h6 h7
  all_goals first
    | exact Or.inr h3
    | exact Or.inr h5
    | exact Or.inr h6
    | exact Or.inl (by
        first
          | exact h2.1
          | exact h4.1
          | exact h5.1
          | exact hB)

/-- After updateOperator the sighting's operator is classified unless the
operator is unresolvable from the observation. -/
lemma updateOperator_establish (ext : ExtFns) (db : Dashboard) (s : AircraftSighting)
    (ac : AircraftRecord) (f : Bool) :
    (updateOperator ext db s ac f).s.operator ≠ operatorUnknown ∨ ac.Flight = "" ∨
      resolveOperator db.IcaoToAirline db.milCodeToOperator ac operatorUnknown
        = operatorUnknown := by
  simp only [updateOperator]
  split_ifs with h1 h2 h3 h4
  all_goals first
    | exact Or.inl h1.1
    | exact Or.inr (Or.inl h2)
    | exact Or.inr (Or.inr (resolveOperator_unknown_absorb _ _ _ s.operator h3))
    | exact Or.inl h3
    | exact Or.inl h4

/-- After updateCountry the sighting's country is classified unless the
country is unresolvable from the observation. -/
lemma updateCountry_establish (ext : ExtFns) (db : Dashboard) (s : AircraftSighting)
    (ac : AircraftRecord) (f : Bool) :
    (updateCountry ext db s ac f).s.country ≠ countryUnknown ∨ ac.Flight = "" ∨
      resolveCountry db.IcaoToAirline db.hexRangeToCountry db.regPrefixToCountry ac
        countryUnknown = countryUnknown := by
  simp only [updateCountry]
  split_ifs with h1 h2 h3 h4
  all_goals first
    | exact Or.inl h1.1
    | exact Or.inr (Or.inl h2)
    | exact Or.inr (Or.inr (resolveCountry_unknown_absorb _ _ _ _ s.country h3))
    | exact Or.inl h3
    | exact Or.inl h4

/-- A cycle with no new flight on a fully settled sighting leaves the
dashboard untouched and raises no rarity flag at all. -/
lemma processClassifiers_silent (ext : ExtFns) (db : Dashboard) (s : AircraftSighting)
    (ac : AircraftRecord)
    (hT : s.typeDesc ≠ typeUnknown ∨ getMake db.IcaoToAircraft ac = "")
    (hO : s.operator ≠ operatorUnknown ∨ ac.Flight = "" ∨
      resolveOperator db.IcaoToAirline db.milCodeToOperator ac operatorUnknown = operatorUnknown)
    (hC : s.country ≠ countryUnknown ∨ ac.Flight = "" ∨
      resolveCountry db.IcaoToAirline db.hexRangeToCountry db.regPrefixToCountry ac
        countryUnknown = countryUnknown) :
    (processClassifiers ext db s ac false).db = db ∧
    (processClassifiers ext db s ac false).flag = 0 := by
  obtain ⟨t1, t2⟩ := updateType_silent ext db s ac hT
  obtain ⟨ct, hct⟩ := updateType_ac ext db s ac false
  obtain ⟨-, -, -, -, -, -, -, -, -, -, -, -, t13, t14⟩ := updateType_frame ext db s ac false
  have hO1 : (updateType ext db s ac false).s.operator ≠ operatorUnknown ∨
      (updateType ext db s ac false).ac.Flight = "" ∨
      resolveOperator db.IcaoToAirline db.milCodeToOperator
        (updateType ext db s ac false).ac operatorUnknown = operatorUnknown := by
    rcases hO with h | h | h
    · left; rw [t13]; exact h
    · right; left; rw [hct]; exact h
    · right; right
      rw [hct, resolveOperator_congr db.IcaoToAirline db.milCodeToOperator operatorUnknown
        { ac with CachedType := ct } ac rfl rfl]
      exact h
  simp only [processClassifiers]
  rw [t1]
  obtain ⟨o1, o2⟩ := updateOperator_silent ext db (updateType ext db s ac false).s
    (updateType ext db s ac false).ac hO1
  obtain ⟨-, -, -, -, -, -, -, -, -, -, -, -, -, o14, o15⟩ := updateOperator_frame ext db
    (updateType ext db s ac false).s (updateType ext db s ac false).ac false
  have hC2 : (updateOperator ext db (updateType ext db s ac false).s
        (updateType ext db s ac false).ac false).s.country ≠ countryUnknown ∨
      (updateOperator ext db (updateType ext db s ac false).s
        (updateType ext db s ac false).ac false).ac.Flight = "" ∨
      resolveCountry db.IcaoToAirline db.hexRangeToCountry db.regPrefixToCountry
        (updateOperator ext db (updateType ext db s ac false).s
          (updateType ext db s ac false).ac false).ac countryUnknown = countryUnknown := by
    rcases hC with h | h | h
    · left; rw [o14, t14]; exact h
    · right; left; rw [o15, hct]; exact h
    · right; right
      rw [o15, hct, resolveCountry_congr db.IcaoToAirline db.hexRangeToCountry
        db.regPrefixToCountry countryUnknown { ac with CachedType := ct } ac rfl rfl rfl]
      exact h
  rw [o1]
  obtain ⟨c1, c2⟩ := updateCountry_silent ext db
    (updateOperator ext db (updateType ext db s ac false).s
      (updateType ext db s ac false).ac false).s
    (updateOperator ext db (updateType ext db s ac false).s
      (updateType ext db s ac false).ac false).ac hC2
  rw [c1, t2, o2, c2]
  exact ⟨rfl, rfl⟩

/-- After one classifier cascade the stored sighting is settled: each of the
three fields is classified or unresolvable, and the flight number is kept. -/
lemma processClassifiers_establish (ext : ExtFns) (db : Dashboard) (s : AircraftSighting)
    (ac : AircraftRecord) (f : Bool)
    (hB : getMake db.IcaoToAircraft ac ≠ typeUnknown) :
    (processClassifiers ext db s ac f).s.lastFlightNo = s.lastFlightNo ∧
    ((processClassifiers ext db s ac f).s.typeDesc ≠ typeUnknown ∨
      getMake db.IcaoToAircraft ac = "") ∧
    ((processClassifiers ext db s ac f).s.operator ≠ operatorUnknown ∨ ac.Flight = "" ∨
      resolveOperator db.IcaoToAirline db.milCodeToOperator ac operatorUnknown
        = operatorUnknown) ∧
    ((processClassifiers ext db s ac f).s.country ≠ countryUnknown ∨ ac.Flight = "" ∨
      resolveCountry db.IcaoToAirline db.hexRangeToCountry db.regPrefixToCountry ac
        countryUnknown = countryUnknown) := by
  obtain ⟨ct, hct⟩ := updateType_ac ext db s ac f
  obtain ⟨-, -, -, -, -, tTbl, -, -, -, -, -, t12, t13, t14⟩ := updateType_frame ext db s ac f
  obtain ⟨-, -, -, -, -, oTbl, -, -, -, -, -, o12, o13, o14, o15⟩ :=
    updateOperator_frame ext (updateType ext db s ac f).db (updateType ext db s ac f).s
      (updateType ext db s ac f).ac f
  obtain ⟨-, -, -, -, -, -, -, -, -, -, -, c12, c13, c14, -⟩ :=
    updateCountry_frame ext
      (updateOperator ext (updateType ext db s ac f).db (updateType ext db s ac f).s
        (updateType ext db s ac f).ac f).db
      (updateOperator ext (updateType ext db s ac f).db (updateType ext db s ac f).s
        (updateType ext db s ac f).ac f).s
      (updateOperator ext (updateType ext db s ac f).db (updateType ext db s ac f).s
        (updateType ext db s ac f).ac f).ac f
  have hTe := updateType_establish ext db s ac f hB
  have hOe := updateOperator_establish ext (updateType ext db s ac f).db
    (updateType ext db s ac f).s (updateType ext db s ac f).ac f
  have hCe := updateCountry_establish ext
    (updateOperator ext (updateType ext db s ac f).db (updateType ext db s ac f).s
      (updateType ext db s ac f).ac f).db
    (updateOperator ext (updateType ext db s ac f).db (updateType ext db s ac f).s
      (updateType ext db s ac f).ac f).s
    (updateOperator ext (updateType ext db s ac f).db (updateType ext db s ac f).s
      (updateType ext db s ac f).ac f).ac f
  simp only [processClassifiers]
  refine ⟨c12.trans (o12.trans t12), ?_, ?_, ?_⟩
  · rcases hTe with h | h
    · left; rw [c13, o13]; exact h
    · right; exact h
  · rcases hOe with h | h | h
    · left; rw [c14]; exact h
    · right; left
      rw [hct] at h
      exact h
    · right; right
      rw [tTbl.2.1, tTbl.2.2.1, hct, resolveOperator_congr db.IcaoToAirline
        db.milCodeToOperator operatorUnknown { ac with CachedType := ct } ac rfl rfl] at h
      exact h
  · rcases hCe with h | h | h
    · left; exact h
    · right; left
      rw [o15, hct] at h
      exact h
    · right; right
      have hTblO := tablesEq_trans oTbl tTbl
      rw [hTblO.2.1, hTblO.2.2.2.1, hTblO.2.2.2.2, o15, hct,
        resolveCountry_congr db.IcaoToAirline db.hexRangeToCountry db.regPrefixToCountry
          countryUnknown { ac with CachedType := ct } ac rfl rfl rfl] at h
      exact h

/-- Resolution of a sighting with a known flight number always records that
flight number. -/
lemma resolveSighting_lastFlight (ext : ExtFns) (now : ℚ) (d : Dashboard)
    (ac0 : AircraftRecord) (hA : getFlightNoAsStr ac0 ≠ flightUnknown) :
    (resolveSighting ext now d ac0).2.lastFlightNo = getFlightNoAsStr ac0 := by
  simp only [resolveSighting]
  exact continuityStep_lastFlight _ _ _ hA

/-- Resolving a stored sighting whose recorded flight number equals the known
observed one: no new flight, classifier fields kept. -/
lemma resolveSighting_known (ext : ExtFns) (now : ℚ) (d : Dashboard)
    (ac0 : AircraftRecord) (sF : AircraftSighting)
    (hp : d.aircraftSightings ac0.Hex = some sF)
    (hl : sF.lastFlightNo = getFlightNoAsStr ac0)
    (hA : getFlightNoAsStr ac0 ≠ flightUnknown) :
    (resolveSighting ext now d ac0).1 = false ∧
    (resolveSighting ext now d ac0).2.typeDesc = sF.typeDesc ∧
    (resolveSighting ext now d ac0).2.operator = sF.operator ∧
    (resolveSighting ext now d ac0).2.country = sF.country := by
  simp only [resolveSighting, hp, Option.isSome_some]
  by_cases hreg : sF.registration = ""
  · rw [if_pos hreg,
      continuityStep_of_eq { sF with registration := ac0.Registration } _ hl hA]
    exact ⟨rfl, rfl, rfl, rfl⟩
  · rw [if_neg hreg, continuityStep_of_eq sF _ hl hA]
    exact ⟨rfl, rfl, rfl, rfl⟩

attribute [local irreducible] processClassifiers resolveSighting

/-- The loop-body tail of a silent cycle: no event appended, no tally moved. -/
lemma processTail_silent (ext : ExtFns) (db : Dashboard) (s : AircraftSighting)
    (ac : AircraftRecord) (hex : String)
    (hT : s.typeDesc ≠ typeUnknown ∨ getMake db.IcaoToAircraft ac = "")
    (hO : s.operator ≠ operatorUnknown ∨ ac.Flight = "" ∨
      resolveOperator db.IcaoToAirline db.milCodeToOperator ac operatorUnknown = operatorUnknown)
    (hC : s.country ≠ countryUnknown ∨ ac.Flight = "" ∨
      resolveCountry db.IcaoToAirline db.hexRangeToCountry db.regPrefixToCountry ac
        countryUnknown = countryUnknown) :
    (processTail ext db s ac hex false).1.RareSightings = db.RareSightings ∧
    (processTail ext db s ac hex false).1.SeenTypeCount = db.SeenTypeCount ∧
    (processTail ext db s ac hex false).1.SeenOperatorCount = db.SeenOperatorCount ∧
    (processTail ext db s ac hex false).1.SeenCountryCount = db.SeenCountryCount ∧
    (processTail ext db s ac hex false).1.totalTypeCount = db.totalTypeCount ∧
    (processTail ext db s ac hex false).1.totalOperatorCount = db.totalOperatorCount ∧
    (processTail ext db s ac hex false).1.totalCountryCount = db.totalCountryCount := by
  obtain ⟨-, -, hH3, -, hHtbl, hHtal⟩ := updateHighest_frame db ac
  obtain ⟨-, -, hF3, -, hFtbl, hFtal⟩ := updateFastest_frame (updateHighest db ac) ac
  have hTbl : TablesEq (updateFastest (updateHighest db ac) ac) db := tablesEq_trans hFtbl hHtbl
  have hT' : s.typeDesc ≠ typeUnknown ∨
      getMake (updateFastest (updateHighest db ac) ac).IcaoToAircraft ac = "" := by
    rcases hT with h | h
    · exact Or.inl h
    · right; rw [hTbl.1]; exact h
  have hO' : s.operator ≠ operatorUnknown ∨ ac.Flight = "" ∨
      resolveOperator (updateFastest (updateHighest db ac) ac).IcaoToAirline
        (updateFastest (updateHighest db ac) ac).milCodeToOperator ac operatorUnknown
        = operatorUnknown := by
    rcases hO with h | h | h
    · exact Or.inl h
    · exact Or.inr (Or.inl h)
    · right; right; rw [hTbl.2.1, hTbl.2.2.1]; exact h
  have hC' : s.country ≠ countryUnknown ∨ ac.Flight = "" ∨
      resolveCountry (updateFastest (updateHighest db ac) ac).IcaoToAirline
        (updateFastest (updateHighest db ac) ac).hexRangeToCountry
        (updateFastest (updateHighest db ac) ac).regPrefixToCountry ac countryUnknown
        = countryUnknown := by
    rcases hC with h | h | h
    · exact Or.inl h
    · exact Or.inr (Or.inl h)
    · right; right; rw [hTbl.2.1, hTbl.2.2.2.1, hTbl.2.2.2.2]; exact h
  obtain ⟨c1, c2⟩ := processClassifiers_silent ext (updateFastest (updateHighest db ac) ac)
    s ac hT' hO' hC'
  simp only [processTail]
  rw [if_neg (fun hn => hn c2), c1]
  exact ⟨hF3.trans hH3, hFtal.1.trans hHtal.1, hFtal.2.1.trans hHtal.2.1,
    hFtal.2.2.1.trans hHtal.2.2.1, hFtal.2.2.2.1.trans hHtal.2.2.2.1,
    hFtal.2.2.2.2.1.trans hHtal.2.2.2.2.1, hFtal.2.2.2.2.2.trans hHtal.2.2.2.2.2⟩

/-- After any loop-body tail the stored sighting is settled for the next
cycle, and at most one rarity event is appended. -/
lemma processTail_establish (ext : ExtFns) (db : Dashboard) (s : AircraftSighting)
    (ac : AircraftRecord) (hex : String) (f : Bool)
    (hB : getMake db.IcaoToAircraft ac ≠ typeUnknown) :
    (∃ sF, (processTail ext db s ac hex f).1.aircraftSightings hex = some sF ∧
      sF.lastFlightNo = s.lastFlightNo ∧
      (sF.typeDesc ≠ typeUnknown ∨ getMake db.IcaoToAircraft ac = "") ∧
      (sF.operator ≠ operatorUnknown ∨ ac.Flight = "" ∨
        resolveOperator db.IcaoToAirline db.milCodeToOperator ac operatorUnknown
          = operatorUnknown) ∧
      (sF.country ≠ countryUnknown ∨ ac.Flight = "" ∨
        resolveCountry db.IcaoToAirline db.hexRangeToCountry db.regPrefixToCountry ac
          countryUnknown = countryUnknown)) ∧
    ((processTail ext db s ac hex f).1.RareSightings = db.RareSightings ∨
      ∃ ev, (processTail ext db s ac hex f).1.RareSightings = db.RareSightings ++ [ev]) := by
  obtain ⟨-, -, hH3, -, hHtbl, -⟩ := updateHighest_frame db ac
  obtain ⟨-, -, hF3, -, hFtbl, -⟩ := updateFastest_frame (updateHighest db ac) ac
  have hTbl : TablesEq (updateFastest (updateHighest db ac) ac) db := tablesEq_trans hFtbl hHtbl
  have hB' : getMake (updateFastest (updateHighest db ac) ac).IcaoToAircraft ac
      ≠ typeUnknown := by
    rw [hTbl.1]; exact hB
  obtain ⟨e1, e2, e3, e4⟩ := processClassifiers_establish ext
    (updateFastest (updateHighest db ac) ac) s ac f hB'
  rw [hTbl.1] at e2
  rw [hTbl.2.1, hTbl.2.2.1] at e3
  rw [hTbl.2.1, hTbl.2.2.2.1, hTbl.2.2.2.2] at e4
  obtain ⟨-, -, -, p4, -, -, -, -⟩ :=
    processClassifiers_frame ext (updateFastest (updateHighest db ac) ac) s ac f
  have hRS : (processClassifiers ext (updateFastest (updateHighest db ac) ac)
      s ac f).db.RareSightings = db.RareSightings := by
    rw [p4, hF3, hH3]
  simp only [processTail]
  constructor
  · refine ⟨{ (processClassifiers ext (updateFastest (updateHighest db ac) ac) s ac f).s with
        info := ext.render
          (processClassifiers ext (updateFastest (updateHighest db ac) ac) s ac f).ac },
      by simp, e1, e2, e3, e4⟩
  · by_cases hfl : (processClassifiers ext (updateFastest (updateHighest db ac) ac)
        s ac f).flag ≠ 0
    · right
      refine ⟨⟨(processClassifiers ext (updateFastest (updateHighest db ac) ac) s ac f).flag,
        { (processClassifiers ext (updateFastest (updateHighest db ac) ac) s ac f).s with
          info := ext.render
            (processClassifiers ext (updateFastest (updateHighest db ac) ac) s ac f).ac }⟩, ?_⟩
      rw [if_pos hfl]
      show (processClassifiers ext (updateFastest (updateHighest db ac) ac)
        s ac f).db.RareSightings ++ _ = _
      rw [hRS]
    · left
      rw [if_neg hfl]
      exact hRS

attribute [local irreducible] processTail

/-- A full loop body on a stored, settled sighting with an unchanged known
flight number is silent: no event, no tally change. -/
lemma processRecord_silent (ext : ExtFns) (now : ℚ) (d : Dashboard)
    (ac0 : AircraftRecord) (sF : AircraftSighting)
    (hp : d.aircraftSightings ac0.Hex = some sF)
    (hl : sF.lastFlightNo = getFlightNoAsStr ac0)
    (hA : getFlightNoAsStr ac0 ≠ flightUnknown)
    (hT : sF.typeDesc ≠ typeUnknown ∨ getMake d.IcaoToAircraft ac0 = "")
    (hO : sF.operator ≠ operatorUnknown ∨ ac0.Flight = "" ∨
      resolveOperator d.IcaoToAirline d.milCodeToOperator ac0 operatorUnknown
        = operatorUnknown)
    (hC : sF.country ≠ countryUnknown ∨ ac0.Flight = "" ∨
      resolveCountry d.IcaoToAirline d.hexRangeToCountry d.regPrefixToCountry ac0
        countryUnknown = countryUnknown) :
    (processRecord ext now d ac0).1.RareSightings = d.RareSightings ∧
    (processRecord ext now d ac0).1.SeenTypeCount = d.SeenTypeCount ∧
    (processRecord ext now d ac0).1.SeenOperatorCount = d.SeenOperatorCount ∧
    (processRecord ext now d ac0).1.SeenCountryCount = d.SeenCountryCount ∧
    (processRecord ext now d ac0).1.totalTypeCount = d.totalTypeCount ∧
    (processRecord ext now d ac0).1.totalOperatorCount = d.totalOperatorCount ∧
    (processRecord ext now d ac0).1.totalCountryCount = d.totalCountryCount := by
  obtain ⟨k1, k2, k3, k4⟩ := resolveSighting_known ext now d ac0 sF hp hl hA
  have hT' : { (resolveSighting ext now d ac0).2 with
        distance := ext.distanceKm d.Lat d.Lon ac0.Lat ac0.Lon }.typeDesc ≠ typeUnknown ∨
      getMake d.IcaoToAircraft
        { ac0 with CachedDist := ext.distanceKm d.Lat d.Lon ac0.Lat ac0.Lon } = "" := by
    rcases hT with h | h
    · left
      show (resolveSighting ext now d ac0).2.typeDesc ≠ typeUnknown
      rw [k2]; exact h
    · right
      rw [getMake_congr d.IcaoToAircraft
        { ac0 with CachedDist := ext.distanceKm d.Lat d.Lon ac0.Lat ac0.Lon } ac0 rfl]
      exact h
  have hO' : { (resolveSighting ext now d ac0).2 with
        distance := ext.distanceKm d.Lat d.Lon ac0.Lat ac0.Lon }.operator ≠ operatorUnknown ∨
      { ac0 with CachedDist := ext.distanceKm d.Lat d.Lon ac0.Lat ac0.Lon }.Flight = "" ∨
      resolveOperator d.IcaoToAirline d.milCodeToOperator
        { ac0 with CachedDist := ext.distanceKm d.Lat d.Lon ac0.Lat ac0.Lon }
        operatorUnknown = operatorUnknown := by
    rcases hO with h | h | h
    · left
      show (resolveSighting ext now d ac0).2.operator ≠ operatorUnknown
      rw [k3]; exact h
    · exact Or.inr (Or.inl h)
    · right; right
      rw [resolveOperator_congr d.IcaoToAirline d.milCodeToOperator operatorUnknown
        { ac0 with CachedDist := ext.distanceKm d.Lat d.Lon ac0.Lat ac0.Lon } ac0 rfl rfl]
      exact h
  have hC' : { (resolveSighting ext now d ac0).2 with
        distance := ext.distanceKm d.Lat d.Lon ac0.Lat ac0.Lon }.country ≠ countryUnknown ∨
      { ac0 with CachedDist := ext.distanceKm d.Lat d.Lon ac0.Lat ac0.Lon }.Flight = "" ∨
      resolveCountry d.IcaoToAirline d.hexRangeToCountry d.regPrefixToCountry
        { ac0 with CachedDist := ext.distanceKm d.Lat d.Lon ac0.Lat ac0.Lon }
        countryUnknown = countryUnknown := by
    rcases hC with h | h | h
    · left
      show (resolveSighting ext now d ac0).2.country ≠ countryUnknown
      rw [k4]; exact h
    · exact Or.inr (Or.inl h)
    · right; right
      rw [resolveCountry_congr d.IcaoToAirline d.hexRangeToCountry d.regPrefixToCountry
        countryUnknown { ac0 with CachedDist := ext.distanceKm d.Lat d.Lon ac0.Lat ac0.Lon }
        ac0 rfl rfl rfl]
      exact h
  simp only [processRecord]
  rw [k1]
  exact processTail_silent ext d _ _ ac0.Hex hT' hO' hC'

/-- Any full loop body with a known flight number and a non-sentinel type
table entry stores a settled sighting and appends at most one rarity event. -/
lemma processRecord_establish (ext : ExtFns) (now : ℚ) (b : Dashboard)
    (ac0 : AircraftRecord)
    (hA : getFlightNoAsStr ac0 ≠ flightUnknown)
    (hB : getMake b.IcaoToAircraft ac0 ≠ typeUnknown) :
    (∃ sF, (processRecord ext now b ac0).1.aircraftSightings ac0.Hex = some sF ∧
      sF.lastFlightNo = getFlightNoAsStr ac0 ∧
      (sF.typeDesc ≠ typeUnknown ∨ getMake b.IcaoToAircraft ac0 = "") ∧
      (sF.operator ≠ operatorUnknown ∨ ac0.Flight = "" ∨
        resolveOperator b.IcaoToAirline b.milCodeToOperator ac0 operatorUnknown
          = operatorUnknown) ∧
      (sF.country ≠ countryUnknown ∨ ac0.Flight = "" ∨
        resolveCountry b.IcaoToAirline b.hexRangeToCountry b.regPrefixToCountry ac0
          countryUnknown = countryUnknown)) ∧
    ((processRecord ext now b ac0).1.RareSightings = b.RareSightings ∨
      ∃ ev, (processRecord ext now b ac0).1.RareSightings = b.RareSightings ++ [ev]) := by
  have hB1 : getMake b.IcaoToAircraft
      { ac0 with CachedDist := ext.distanceKm b.Lat b.Lon ac0.Lat ac0.Lon } ≠ typeUnknown := by
    rw [getMake_congr b.IcaoToAircraft
      { ac0 with CachedDist := ext.distanceKm b.Lat b.Lon ac0.Lat ac0.Lon } ac0 rfl]
    exact hB
  obtain ⟨⟨sF, hsF, hlf, ht, ho, hc⟩, hev⟩ := processTail_establish ext b
    { (resolveSighting ext now b ac0).2 with
      distance := ext.distanceKm b.Lat b.Lon ac0.Lat ac0.Lon }
    { ac0 with CachedDist := ext.distanceKm b.Lat b.Lon ac0.Lat ac0.Lon }
    ac0.Hex (resolveSighting ext now b ac0).1 hB1
  constructor
  · refine ⟨sF, hsF, ?_, ?_, ?_, ?_⟩
    · rw [hlf]
      exact resolveSighting_lastFlight ext now b ac0 hA
    · rcases ht with h | h
      · exact Or.inl h
      · right
        rw [getMake_congr b.IcaoToAircraft
          { ac0 with CachedDist := ext.distanceKm b.Lat b.Lon ac0.Lat ac0.Lon } ac0 rfl] at h
        exact h
    · rcases ho with h | h | h
      · exact Or.inl h
      · exact Or.inr (Or.inl h)
      · right; right
        rw [resolveOperator_congr b.IcaoToAirline b.milCodeToOperator operatorUnknown
          { ac0 with CachedDist := ext.distanceKm b.Lat b.Lon ac0.Lat ac0.Lon } ac0 rfl rfl] at h
        exact h
    · rcases hc with h | h | h
      · exact Or.inl h
      · exact Or.inr (Or.inl h)
      · right; right
        rw [resolveCountry_congr b.IcaoToAirline b.hexRangeToCountry b.regPrefixToCountry
          countryUnknown { ac0 with CachedDist := ext.distanceKm b.Lat b.Lon ac0.Lat ac0.Lon }
          ac0 rfl rfl rfl] at h
        exact h
  · exact hev

attribute [local irreducible] processRecord

/-- An ingest of a one-record batch: process that record from a base with a
cleared event list, then publish the mutated record. -/
lemma ingest_single (ext : ExtFns) (now : ℚ) (d : Dashboard) (ac : AircraftRecord) :
    ingest ext now d [ac] =
      { (processRecord ext now
          { d with CurrentAircraft := [ac], RareSightings := [] } ac).1 with
        CurrentAircraft := [(processRecord ext now
          { d with CurrentAircraft := [ac], RareSightings := [] } ac).2] } := by
  rfl

/-- One ingest of the fixed single-record batch establishes the continuity
invariant and emits at most one rarity event. -/
lemma ingest_establish (ext : ExtFns) (now : ℚ) (tb d : Dashboard) (ac : AircraftRecord)
    (hA : getFlightNoAsStr ac ≠ flightUnknown)
    (hB : getMake tb.IcaoToAircraft ac ≠ typeUnknown)
    (hTbl : TablesEq d tb) :
    ContinuityInv tb ac (ingest ext now d [ac]) ∧
    (ingest ext now d [ac]).RareSightings.length ≤ 1 := by
  rw [ingest_single]
  have hB' : getMake
      ({ d with CurrentAircraft := [ac], RareSightings := [] } : Dashboard).IcaoToAircraft ac
      ≠ typeUnknown := by
    have hd : getMake d.IcaoToAircraft ac ≠ typeUnknown := by
      rw [hTbl.1]; exact hB
    exact hd
  obtain ⟨⟨sF, hsF, h1, h2, h3, h4⟩, hev⟩ := processRecord_establish ext now
    { d with CurrentAircraft := [ac], RareSightings := [] } ac hA hB'
  have hTblR := (processRecord_frame ext now
    { d with CurrentAircraft := [ac], RareSightings := [] } ac).1
  constructor
  · constructor
    · exact tablesEq_trans hTblR hTbl
    · refine ⟨sF, hsF, h1, ?_, ?_, ?_⟩
      · rcases h2 with h | h
        · exact Or.inl h
        · right
          have hd : getMake d.IcaoToAircraft ac = "" := h
          rw [hTbl.1] at hd
          exact hd
      · rcases h3 with h | h | h
        · exact Or.inl h
        · exact Or.inr (Or.inl h)
        · right; right
          have hd : resolveOperator d.IcaoToAirline d.milCodeToOperator ac operatorUnknown
              = operatorUnknown := h
          rw [hTbl.2.1, hTbl.2.2.1] at hd
          exact hd
      · rcases h4 with h | h | h
        · exact Or.inl h
        · exact Or.inr (Or.inl h)
        · right; right
          have hd : resolveCountry d.IcaoToAirline d.hexRangeToCountry d.regPrefixToCountry
              ac countryUnknown = countryUnknown := h
          rw [hTbl.2.1, hTbl.2.2.2.1, hTbl.2.2.2.2] at hd
          exact hd
  · rcases hev with h | ⟨ev, h⟩
    · show (processRecord ext now
        { d with CurrentAircraft := [ac], RareSightings := [] } ac).1.RareSightings.length ≤ 1
      rw [h]
      simp
    · show (processRecord ext now
        { d with CurrentAircraft := [ac], RareSightings := [] } ac).1.RareSightings.length ≤ 1
      rw [h]
      simp

/-- An ingest of the fixed single-record batch from a dashboard satisfying
the continuity invariant is silent: no event, no tally change. -/
lemma ingest_silent (ext : ExtFns) (now : ℚ) (tb d : Dashboard) (ac : AircraftRecord)
    (hA : getFlightNoAsStr ac ≠ flightUnknown)
    (hInv : ContinuityInv tb ac d) :
    (ingest ext now d [ac]).RareSightings = [] ∧
    (ingest ext now d [ac]).SeenTypeCount = d.SeenTypeCount ∧
    (ingest ext now d [ac]).SeenOperatorCount = d.SeenOperatorCount ∧
    (ingest ext now d [ac]).SeenCountryCount = d.SeenCountryCount ∧
    (ingest ext now d [ac]).totalTypeCount = d.totalTypeCount ∧
    (ingest ext now d [ac]).totalOperatorCount = d.totalOperatorCount ∧
    (ingest ext now d [ac]).totalCountryCount = d.totalCountryCount := by
  obtain ⟨hTbl, sF, hp, h1, h2, h3, h4⟩ := hInv
  rw [ingest_single]
  have hp' : ({ d with CurrentAircraft := [ac], RareSightings := [] } :
      Dashboard).aircraftSightings ac.Hex = some sF := hp
  have hT' : sF.typeDesc ≠ typeUnknown ∨ getMake
      ({ d with CurrentAircraft := [ac], RareSightings := [] } :
        Dashboard).IcaoToAircraft ac = "" := by
    rcases h2 with h | h
    · exact Or.inl h
    · right
      have hd : getMake d.IcaoToAircraft ac = "" := by rw [hTbl.1]; exact h
      exact hd
  have hO' : sF.operator ≠ operatorUnknown ∨ ac.Flight = "" ∨ resolveOperator
      ({ d with CurrentAircraft := [ac], RareSightings := [] } : Dashboard).IcaoToAirline
      ({ d with CurrentAircraft := [ac], RareSightings := [] } : Dashboard).milCodeToOperator
      ac operatorUnknown = operatorUnknown := by
    rcases h3 with h | h | h
    · exact Or.inl h
    · exact Or.inr (Or.inl h)
    · right; right
      have hd : resolveOperator d.IcaoToAirline d.milCodeToOperator ac operatorUnknown
          = operatorUnknown := by rw [hTbl.2.1, hTbl.2.2.1]; exact h
      exact hd
  have hC' : sF.country ≠ countryUnknown ∨ ac.Flight = "" ∨ resolveCountry
      ({ d with CurrentAircraft := [ac], RareSightings := [] } : Dashboard).IcaoToAirline
      ({ d with CurrentAircraft := [ac], RareSightings := [] } : Dashboard).hexRangeToCountry
      ({ d with CurrentAircraft := [ac], RareSightings := [] } : Dashboard).regPrefixToCountry
      ac countryUnknown = countryUnknown := by
    rcases h4 with h | h | h
    · exact Or.inl h
    · exact Or.inr (Or.inl h)
    · right; right
      have hd : resolveCountry d.IcaoToAirline d.hexRangeToCountry d.regPrefixToCountry
          ac countryUnknown = countryUnknown := by
        rw [hTbl.2.1, hTbl.2.2.2.1, hTbl.2.2.2.2]; exact h
      exact hd
  obtain ⟨r1, r2, r3, r4, r5, r6, r7⟩ := processRecord_silent ext now
    { d with CurrentAircraft := [ac], RareSightings := [] } ac sF hp' h1 hA hT' hO' hC'
  exact ⟨by rw [show ({ (processRecord ext now
      { d with CurrentAircraft := [ac], RareSightings := [] } ac).1 with
      CurrentAircraft := [(processRecord ext now
      { d with CurrentAircraft := [ac], RareSightings := [] } ac).2] } :
      Dashboard).RareSightings = (processRecord ext now
      { d with CurrentAircraft := [ac], RareSightings := [] } ac).1.RareSightings from rfl,
      r1], r2, r3, r4, r5, r6, r7⟩

/-- The continuity invariant holds after every cycle of the repeated batch. -/
lemma continuity_inv_iter (ext : ExtFns) (now : ℚ) (db : Dashboard) (ac : AircraftRecord)
    (hA : getFlightNoAsStr ac ≠ flightUnknown)
    (hB : getMake db.IcaoToAircraft ac ≠ typeUnknown) :
    ∀ n : ℕ, ContinuityInv db ac ((fun d => ingest ext now d [ac])^[n + 1] db) := by
  intro n
  induction n with
  | zero =>
    rw [Function.iterate_one]
    exact (ingest_establish ext now db db ac hA hB ⟨rfl, rfl, rfl, rfl, rfl⟩).1
  | succ m ih =>
    rw [Function.iterate_succ_apply']
    exact (ingest_establish ext now db ((fun d => ingest ext now d [ac])^[m + 1] db)
      ac hA hB ih.1).1

set_option maxHeartbeats 1000000 in
/-- C3 (amended): repeatedly ingesting one fixed observation with a known,
unchanged flight number emits at most one rarity event on the first cycle
and none afterwards, and every cycle after the first leaves all six rarity
tallies unchanged — provided the type table does not resolve the
observation's type code to the literal string sentinel "unknown" (without
that proviso the claim fails, see the counterexample). -/
theorem continuity_idempotence_amended (ext : ExtFns) (now : ℚ) (db : Dashboard)
    (ac : AircraftRecord)
    (hA : getFlightNoAsStr ac ≠ flightUnknown)
    (hB : getMake db.IcaoToAircraft ac ≠ typeUnknown) :
    (ingest ext now db [ac]).RareSightings.length ≤ 1 ∧
    ∀ n : ℕ, 1 ≤ n →
      ((fun d => ingest ext now d [ac])^[n + 1] db).RareSightings = [] ∧
      ((fun d => ingest ext now d [ac])^[n + 1] db).SeenTypeCount
        = ((fun d => ingest ext now d [ac])^[n] db).SeenTypeCount ∧
      ((fun d => ingest ext now d [ac])^[n + 1] db).SeenOperatorCount
        = ((fun d => ingest ext now d [ac])^[n] db).SeenOperatorCount ∧
      ((fun d => ingest ext now d [ac])^[n + 1] db).SeenCountryCount
        = ((fun d => ingest ext now d [ac])^[n] db).SeenCountryCount ∧
      ((fun d => ingest ext now d [ac])^[n + 1] db).totalTypeCount
        = ((fun d => ingest ext now d [ac])^[n] db).totalTypeCount ∧
      ((fun d => ingest ext now d [ac])^[n + 1] db).totalOperatorCount
        = ((fun d => ingest ext now d [ac])^[n] db).totalOperatorCount ∧
      ((fun d => ingest ext now d [ac])^[n + 1] db).totalCountryCount
        = ((fun d => ingest ext now d [ac])^[n] db).totalCountryCount := by
  constructor
  · exact (ingest_establish ext now db db ac hA hB ⟨rfl, rfl, rfl, rfl, rfl⟩).2
  · intro n hn
    obtain ⟨m, rfl⟩ : ∃ m, n = m + 1 := ⟨n - 1, by omega⟩
    have hinv := continuity_inv_iter ext now db ac hA hB m
    have hsil := ingest_silent ext now db ((fun d => ingest ext now d [ac])^[m + 1] db)
      ac hA hinv
    rw [Function.iterate_succ_apply']
    exact hsil

end

theorem continuity_idempotence_amended_witness :
    getFlightNoAsStr acSQ ≠ flightUnknown ∧
    getMake emptyTablesDashboard.IcaoToAircraft acSQ ≠ typeUnknown ∧
    ((fun d => ingest extZero 0 d [acSQ])^[2] emptyTablesDashboard).RareSightings = [] :=
  ⟨by decide, by decide,
    ((continuity_idempotence_amended extZero 0 emptyTablesDashboard acSQ (by decide)
      (by decide)).2 1 (by decide)).1⟩
